import Mathlib

/-!
# fyne-moz-vpn: login, device provisioning and startup

A shallow embedding of `client.go`, `app.go` and `main.go`.

* Bytes are `Fin 256`; Go strings are Lean strings; `[]byte(s)` is the UTF-8
  encoding of `s`.
* `encoding/base64` (`StdEncoding`) is written out, together with a decoder
  that inverts it.
* Everything the program obtains from outside (the random source, SHA-256,
  the HTTP transport, JSON decoding, key generation, the browser launcher and
  the requests arriving at the local listener) is a field of `World`.
* Effects are recorded in a trace of `Event`s carried by the state.
-/

namespace MozVpn

/-! ## Bytes and base64 -/

abbrev Byte := Fin 256

/-- The `StdEncoding` alphabet of `encoding/base64`. -/
def encodeStd : List Char :=
  "ABCDEFGHIJKLMNOPQRSTUVWXYZabcdefghijklmnopqrstuvwxyz0123456789+/".toList

/-- The padding character of `StdEncoding`. -/
def padChar : Char := '='

/-- Table lookup `enc.encode[i]`. -/
def encChar (i : Nat) : Char := encodeStd.getD i 'A'

/-- Position of a character in the alphabet, if it has one. -/
def decIndex (c : Char) : Option Nat :=
  let i := encodeStd.indexOf c
  if i < 64 then some i else none

/-- `Encoding.Encode` of `encoding/base64` with the standard alphabet and padding:
full groups of three bytes give four characters, a remainder of one or two
bytes gives two or three characters followed by padding. -/
def encodeChars : List Byte → List Char
  | [] => []
  | [b0] =>
    let val := b0.val * 65536
    [encChar (val / 262144 % 64), encChar (val / 4096 % 64), padChar, padChar]
  | [b0, b1] =>
    let val := b0.val * 65536 + b1.val * 256
    [encChar (val / 262144 % 64), encChar (val / 4096 % 64), encChar (val / 64 % 64), padChar]
  | b0 :: b1 :: b2 :: rest =>
    let val := b0.val * 65536 + b1.val * 256 + b2.val
    encChar (val / 262144 % 64) :: encChar (val / 4096 % 64) :: encChar (val / 64 % 64)
      :: encChar (val % 64) :: encodeChars rest

/-- `base64.StdEncoding.EncodeToString`. -/
def base64Encode (src : List Byte) : String := String.mk (encodeChars src)

/-- A byte from a number. -/
def toByte (n : Nat) : Byte := ⟨n % 256, Nat.mod_lt _ (by decide)⟩

/-- Decoder for padded standard base64: groups of four characters, padding
only in the last group. -/
def decodeChars : List Char → Option (List Byte)
  | [] => some []
  | c0 :: c1 :: c2 :: c3 :: rest =>
    match decIndex c0, decIndex c1 with
    | some i0, some i1 =>
      if c2 = padChar then
        if c3 = padChar ∧ rest = [] then some [toByte ((i0 * 64 + i1) / 16)] else none
      else
        match decIndex c2 with
        | none => none
        | some i2 =>
          if c3 = padChar then
            if rest = [] then
              some [toByte (((i0 * 64 + i1) * 64 + i2) / 1024),
                    toByte (((i0 * 64 + i1) * 64 + i2) / 4)]
            else none
          else
            match decIndex c3, decodeChars rest with
            | some i3, some tl =>
              let val := ((i0 * 64 + i1) * 64 + i2) * 64 + i3
              some (toByte (val / 65536) :: toByte (val / 256) :: toByte val :: tl)
            | _, _ => none
    | _, _ => none
  | _ => none

/-- Inverse of `base64Encode` on its image (`StdEncoding.DecodeString` on
canonical input). -/
def base64Decode (s : String) : Option (List Byte) := decodeChars s.toList

/-- The conversion `[]byte(s)`: the UTF-8 bytes of the string. -/
def stringBytes (s : String) : List Byte :=
  s.toList.flatMap fun c => (String.utf8EncodeChar c).map fun u => u.val

/-! ## The challenge generator (`client.go`) -/

def bASE_URL : String := "https://vpn.mozilla.org"
def v1_API : String := "api/v1"
def v2_API : String := "api/v2"
def rELAY_LIST : String := "https://api.mullvad.net/public/relays/wireguard/v1/"

/-- How a call ends: it returns, the process dies (a run-time panic such as a
nil dereference, or a fatal error raised by the runtime), or it blocks for
ever. -/
inductive Outcome (α : Type) where
  | returned (a : α)
  | panicked
  | blocked
deriving DecidableEq, Repr

/-- What `crypto/rand.Read` does when the system source fails to fill the
buffer. This depends on the Go release the program is built with, which the
repository does not fix. -/
inductive ReadFailure where
  /-- Before Go 1.24 the error is returned to the caller (`n == len(b)` if and
  only if `err == nil`). -/
  | reported
  /-- Since Go 1.24 `Read` never returns an error: the runtime stops the
  process with a fatal error. -/
  | fatal
deriving DecidableEq, Repr

/-- `make([]byte, n)`: a zeroed buffer. -/
def makeBytes (n : Nat) : List Byte := List.replicate n 0

/-- `rand.Read(buf)` when the source delivers `delivered`. With enough bytes
the buffer is filled and no error is reported. With fewer bytes than the
buffer holds the read fails: under `ReadFailure.reported` the bytes obtained
are written over the front of the buffer and an error is reported; under
`ReadFailure.fatal` the process dies. A returned result is the buffer
afterwards and the error flag. -/
def randRead (onFailure : ReadFailure) (buf delivered : List Byte) :
    Outcome (List Byte × Bool) :=
  if delivered.length < buf.length then
    match onFailure with
    | .reported => .returned (delivered.take buf.length ++ buf.drop delivered.length, true)
    | .fatal => .panicked
  else .returned (delivered.take buf.length ++ buf.drop delivered.length, false)

/-- `createChallengeUrl`: `sha256Sum` is `sha256.New().Write(·).Sum(nil)`,
`delivered` what the random source hands to `rand.Read`. The error
result of `rand.Read` is dropped, as in the source. -/
def createChallengeUrl (onFailure : ReadFailure) (sha256Sum : List Byte → List Byte)
    (delivered : List Byte) : Outcome (String × String) :=
  match randRead onFailure (makeBytes 32) delivered with
  | .panicked => .panicked
  | .blocked => .blocked
  | .returned (a, _) =>
    let b := base64Encode a
    let c := sha256Sum (stringBytes b)
    let d := base64Encode c
    let browserUrl :=
      bASE_URL ++ "/" ++ v2_API ++ "/vpn/login/linux?code_challenge_method=S256&code_challenge="
        ++ d ++ "&port=" ++ "9443"
    .returned (b, browserUrl)

/-! ## Data model (`client.go`) -/

/-- Go `error` values are represented by their message. -/
abbrev Error := String

/-- A `time.Time`, kept as an uninterpreted timestamp. -/
abbrev Time := Nat

structure Device where
  Name : String
  UniqueID : Option String
  Pubkey : String
  IPv4Address : String
  IPv6Address : String
  CreatedAt : Time
deriving DecidableEq, Repr

structure VPN where
  Active : Bool
  CreatedAt : Time
  RenewsOn : Time
deriving DecidableEq, Repr

structure Subscriptions where
  Vpn : VPN
deriving DecidableEq, Repr

structure User where
  Email : String
  Avatar : String
  DisplayName : String
  Devices : List Device
  Subscriptions : Subscriptions
  MaxDevices : Int
deriving DecidableEq, Repr

structure Root where
  User : User
  Token : String
deriving DecidableEq, Repr

structure UploadRes where
  Name : String
  UniqueID : String
  Pubkey : String
  IPv4Address : String
  IPv6Address : String
  CreatedAt : Time
deriving DecidableEq, Repr

structure Relay where
  Hostname : String
  IpV4AddrIn : String
  IpV6AddrIn : String
  PubKey : String
  MultihopPort : Nat
deriving DecidableEq, Repr

/-- A city of the relay list. The coordinates are `float64` in the source and
are only carried along; they are kept as uninterpreted numbers. -/
structure City where
  Name : String
  Code : String
  Latitude : Int
  Longitude : Int
  Relays : List Relay
deriving DecidableEq, Repr

structure Country where
  Name : String
  Code : String
  Cities : List City
deriving DecidableEq, Repr

structure RelayList where
  Countries : List Country
deriving DecidableEq, Repr

/-! ## The outside world -/

/-- An `http.Request` as the client builds it. A JSON body made by
`json.Marshal` from a `map[string]string` is kept as its key/value pairs, in
the key order `json.Marshal` emits. -/
structure Request where
  method : String
  url : String
  headers : List (String × String)
  body : Option (List (String × String))
deriving DecidableEq, Repr

/-- Result of a call that returns `(value, error)`. -/
inductive Res (α : Type) where
  | ok (a : α)
  | err (e : Error)
deriving DecidableEq, Repr

/-- An `http.Response`: the status code and what `io.ReadAll(res.Body)` gives. -/
structure Response where
  StatusCode : Nat
  Body : Res String
deriving DecidableEq, Repr

/-- Observable effects, in program order. -/
inductive Event where
  /-- Output of `log.Println`, `log.Printf` or `log.Fatalf`. -/
  | log (msg : String)
  /-- A call `m.client.Do(req)`. -/
  | httpDo (req : Request)
  /-- A call `rand.Read`. -/
  | randRead
  /-- A call `ed25519.GenerateKey(rand.Reader)`. -/
  | generateKey
  /-- A call `browser.OpenURL(url)`. -/
  | openURL (url : String)
  /-- The registration `http.HandleFunc(pattern, handler)`. -/
  | handleFunc (pattern : String)
  /-- The start `go server.ListenAndServe()` of a server on `addr`. -/
  | listen (addr : String)
  /-- A call `server.Shutdown`. -/
  | shutdown
  /-- A request reaching the callback handler, with the value of
  `r.URL.Query().Get("code")`. -/
  | request (code : String)
  /-- A completed send `channel <- result`. -/
  | send (r : Root)
  /-- A completed receive `<-channel`. -/
  | recv (r : Root)
  /-- A call `Preferences().SetString(key, value)`. -/
  | setString (key value : String)
  /-- The call `Window.ShowAndRun()`. -/
  | showAndRun
deriving DecidableEq, Repr

abbrev Trace := List Event

/-- Everything the program takes from its environment. Calls whose answer may
depend on what happened before receive the trace so far. -/
structure World where
  /-- The digest `sha256.New().Write(data).Sum(nil)`. -/
  sha256Sum : List Byte → List Byte
  /-- The bytes the system random source delivers to a `rand.Read`. -/
  randSource : Trace → List Byte
  /-- What `rand.Read` does when the source fails. -/
  readFailure : ReadFailure
  /-- The call `ed25519.GenerateKey(rand.Reader)`: public and private key bytes. -/
  generateKey : Trace → Res (List Byte × List Byte)
  /-- The transport `http.Client.Do`. -/
  clientDo : Trace → Request → Res Response
  /-- The decoder `json.Unmarshal` into a `User`. -/
  decodeUser : String → Res User
  /-- The decoder `json.Unmarshal` into a `Root`. -/
  decodeRoot : String → Res Root
  /-- The decoder `json.Unmarshal` into an `UploadRes`. -/
  decodeUploadRes : String → Res UploadRes
  /-- The decoder `json.Unmarshal` into a `RelayList`. -/
  decodeRelayList : String → Res RelayList
  /-- The launcher `browser.OpenURL`: `none` is success. -/
  openURL : Trace → String → Option Error
  /-- The query strings of the requests that reach the local listener while
  `Login` waits, in the order their handlers run. -/
  incoming : List (List (String × String))

/-! ## Channels -/

/-- A buffered channel of `*Root`: its capacity and the values sent and not
yet received, oldest first. The first `cap` of them sit in the buffer; the
others belong to senders parked on the full channel. -/
structure Chan where
  cap : Nat
  queued : List Root
deriving DecidableEq, Repr

/-- The allocation `make(chan *Root, n)`. -/
def Chan.make (n : Nat) : Chan := ⟨n, []⟩

/-- The values in the buffer of the channel. -/
def Chan.buf (ch : Chan) : List Root := ch.queued.take ch.cap

/-- The send `channel <- v`: the value joins the queue; with room in the
buffer the send completes (`true`), otherwise the sender parks (`false`). -/
def Chan.send (ch : Chan) (v : Root) : Chan × Bool :=
  (⟨ch.cap, ch.queued ++ [v]⟩, decide (ch.queued.length < ch.cap))

/-- The receive `<-channel`: takes the oldest queued value; on an empty
channel the receiver blocks (`none`). -/
def Chan.recv (ch : Chan) : Option (Root × Chan) :=
  match ch.queued with
  | [] => none
  | v :: rest => some (v, ⟨ch.cap, rest⟩)

/-! ## The API client (`client.go`) -/

/-- The text `fmt` prints for a nil `error` under the verb `%s`. -/
def nilErrorText : String := "%!s(<nil>)"

/-- `MozClient.GetUser`. -/
def GetUser (w : World) (mozToken : String) (tr : Trace) : Res User × Trace :=
  let requestUrl := bASE_URL ++ "/" ++ v1_API ++ "/vpn/account"
  let bearerAuth := "Bearer " ++ mozToken
  let req : Request := ⟨"GET", requestUrl, [("Authorization", bearerAuth)], none⟩
  let tr1 := tr ++ [Event.httpDo req]
  match w.clientDo tr req with
  | .err err => (.err ("unable perform GET request err:" ++ err), tr1)
  | .ok res =>
    if res.StatusCode ≠ 200 then
      match res.Body with
      | .err err => (.err ("unable to get body from HTTP request err:" ++ err), tr1)
      | .ok bodyStr =>
        (.err ("did not get HTTP 200 from request err:" ++ nilErrorText),
          tr1 ++ [Event.log ("bodyStr " ++ bodyStr)])
    else
      match res.Body with
      | .err err => (.err ("unable to get body from HTTP request err:" ++ err), tr1)
      | .ok body =>
        match w.decodeUser body with
        | .err err => (.err ("unable to parse JSON as User err:" ++ err), tr1)
        | .ok user => (.ok user, tr1)

/-- `MozClient.verifyLogin`. -/
def verifyLogin (w : World) (code verifier : String) (tr : Trace) : Res Root × Trace :=
  let postBody := [("code", code), ("code_verifier", verifier)]
  let requestUrl := bASE_URL ++ "/" ++ v2_API ++ "/vpn/login/verify"
  let req : Request :=
    ⟨"POST", requestUrl,
      [("User-Agent", "Fyne Moz VPN"), ("Content-Type", "application/json")], some postBody⟩
  let tr1 := tr ++ [Event.httpDo req]
  match w.clientDo tr req with
  | .err err => (.err ("unable perform POST request err:" ++ err), tr1)
  | .ok res =>
    if res.StatusCode ≠ 200 then
      (.err ("did not get HTTP 200 from request err:" ++ nilErrorText), tr1)
    else
      match res.Body with
      | .err err => (.err ("unable to get body from HTTP request err:" ++ err), tr1)
      | .ok bodyBytes =>
        match w.decodeRoot bodyBytes with
        | .err err => (.err ("unable to parse JSON as Root err:" ++ err), tr1)
        | .ok result => (.ok result, tr1)

/-- `MozClient.UploadDevice`. The status code is not inspected. -/
def UploadDevice (w : World) (pubKey mozToken : String) (tr : Trace) : Res UploadRes × Trace :=
  let postBody := [("name", "MozVPN"), ("pubkey", pubKey)]
  let requestUrl := bASE_URL ++ "/" ++ v1_API ++ "/vpn/device"
  let bearerStr := "Bearer " ++ mozToken
  let req : Request :=
    ⟨"POST", requestUrl,
      [("Authorization", bearerStr), ("User-Agent", "Fyne Moz VPN"),
        ("Content-Type", "application/json")], some postBody⟩
  let tr1 := tr ++ [Event.httpDo req]
  match w.clientDo tr req with
  | .err err => (.err ("unable perform POST request err:" ++ err), tr1)
  | .ok res =>
    match res.Body with
    | .err err => (.err ("unable to get body from HTTP request err:" ++ err), tr1)
    | .ok bodyBytes =>
      match w.decodeUploadRes bodyBytes with
      | .err err => (.err ("unable to parse JSON as User err:" ++ err), tr1)
      | .ok result => (.ok result, tr1)

/-- `MozClient.GetRelayList`. -/
def GetRelayList (w : World) (tr : Trace) : Res RelayList × Trace :=
  let req : Request := ⟨"GET", rELAY_LIST, [], none⟩
  let tr1 := tr ++ [Event.httpDo req]
  match w.clientDo tr req with
  | .err err => (.err ("unable perform GET request err:" ++ err), tr1)
  | .ok res =>
    if res.StatusCode ≠ 200 then
      match res.Body with
      | .err err =>
        (.err ("unable to get body from HTTP request to " ++ rELAY_LIST ++ " err:" ++ err), tr1)
      | .ok bodyStr =>
        (.err ("did not get HTTP 200 from request to " ++ rELAY_LIST ++ " err:" ++ nilErrorText),
          tr1 ++ [Event.log ("bodyStr " ++ bodyStr)])
    else
      match res.Body with
      | .err err =>
        (.err ("unable to get body from HTTP request to " ++ rELAY_LIST ++ " err:" ++ err), tr1)
      | .ok body =>
        match w.decodeRelayList body with
        | .err err =>
          (.err ("unable to parse JSON as User obtained from " ++ rELAY_LIST ++ " err:" ++ err),
            tr1)
        | .ok relay => (.ok relay, tr1)

/-- The lookup `r.URL.Query().Get(key)`: the first value of the key, or the
empty string when the key is absent. -/
def queryGet (queries : List (String × String)) (key : String) : String :=
  match queries.lookup key with
  | some v => v
  | none => ""

/-- The function returned by `MozClient.createHandler(verifier, channel)`, run
on a request with query `queries`. The result is how the run ends, the
channel afterwards and the trace afterwards. -/
def createHandler (w : World) (verifier : String) (channel : Chan)
    (queries : List (String × String)) (tr : Trace) : Outcome Unit × Chan × Trace :=
  let code := queryGet queries "code"
  let tr := tr ++ [Event.request code, Event.log ("Code " ++ code)]
  if code = "" then
    (.returned (), channel, tr)
  else
    match verifyLogin w code verifier tr with
    | (.err err, tr) =>
      (.returned (), channel, tr ++ [Event.log ("Unable to open URL err:" ++ err ++ "\n")])
    | (.ok result, tr) =>
      match channel.send result with
      | (channel, false) => (.blocked, channel, tr)
      | (channel, true) => (.returned (), channel, tr ++ [Event.send result])

/-- `MozClient.startServer`: the handler is registered and the listener is
started on port 9443. The registration goes to the default mux of the
process, where registering the same pattern a second time panics; `main`
calls `Login` at most once, and this describes that first registration. -/
def startServer (tr : Trace) : Trace :=
  tr ++ [Event.handleFunc "/", Event.listen ":9443"]

/-- The wait `res := <-channel` of `Login` while the listener serves the
requests in `reqs`: each request runs the handler; as soon as the channel
holds a value the receive completes, the server is shut down and `Login`
returns. When the requests run out with the channel empty, the receive
blocks for ever. -/
def awaitCallback (w : World) (verifier : String) :
    Chan → List (List (String × String)) → Trace → Outcome (Res Root) × Trace
  | channel, [], tr =>
    match channel.recv with
    | some (res, _) => (.returned (.ok res), tr ++ [Event.recv res, Event.shutdown])
    | none => (.blocked, tr)
  | channel, q :: rest, tr =>
    match channel.recv with
    | some (res, _) => (.returned (.ok res), tr ++ [Event.recv res, Event.shutdown])
    | none =>
      match createHandler w verifier channel q tr with
      | (_, channel, tr) => awaitCallback w verifier channel rest tr

/-- `MozClient.Login`. -/
def Login (w : World) (tr : Trace) : Outcome (Res Root) × Trace :=
  let channel := Chan.make 1
  match createChallengeUrl w.readFailure w.sha256Sum (w.randSource tr) with
  | .panicked => (.panicked, tr ++ [Event.randRead])
  | .blocked => (.blocked, tr ++ [Event.randRead])
  | .returned (verifier, browserUrl) =>
    let tr := tr ++ [Event.randRead]
    let tr := startServer tr
    match w.openURL tr browserUrl with
    | some err =>
      (.returned (.err ("unable to open URL err:" ++ err)), tr ++ [Event.openURL browserUrl])
    | none => awaitCallback w verifier channel w.incoming (tr ++ [Event.openURL browserUrl])

/-! ## The application (`app.go`, `main.go`) -/

/-- The preference store behind `m.App.Preferences()`: keys with their values. -/
abbrev Prefs := List (String × String)

/-- The read `Preferences().String(key)`: the stored value, or the empty
string when the key is absent. -/
def Prefs.stringAt (p : Prefs) (key : String) : String :=
  match p.lookup key with
  | some v => v
  | none => ""

/-- The write `Preferences().SetString(key, value)`. -/
def Prefs.setString (p : Prefs) (key value : String) : Prefs :=
  (key, value) :: p.filter fun e => e.1 != key

structure SelectState where
  Country : String
  City : String
  Relay : String
deriving DecidableEq, Repr

/-- The fields of `MozApp` the startup code reads or writes; `Preferences`
stands for `m.App.Preferences()`. The window and the HTTP client carry no
state of their own here. -/
structure MozApp where
  Preferences : Prefs
  User : Option User
  connected : Bool
  relayList : Option RelayList
  selectState : SelectState
deriving DecidableEq, Repr

/-- `newMozApp`, started on the persisted preferences `prefs`. A failed relay
list fetch is logged and leaves `relayList` nil. -/
def newMozApp (w : World) (prefs : Prefs) (tr : Trace) : MozApp × Trace :=
  match GetRelayList w tr with
  | (.err err, tr) =>
    (⟨prefs, none, false, none, ⟨"", "", ""⟩⟩,
      tr ++ [Event.log ("Unable to get relay list err:" ++ err ++ "\n")])
  | (.ok relayList, tr) => (⟨prefs, none, false, some relayList, ⟨"", "", ""⟩⟩, tr)

/-- `MozApp.InitUser`. -/
def InitUser (w : World) (m : MozApp) (tr : Trace) : Outcome (Option Error) × MozApp × Trace :=
  let mozToken := m.Preferences.stringAt "MOZ_TOKEN"
  if mozToken = "" then
    match Login w tr with
    | (.panicked, tr) => (.panicked, m, tr)
    | (.blocked, tr) => (.blocked, m, tr)
    | (.returned (.err err), tr) => (.returned (some ("unable perform Login err:" ++ err)), m, tr)
    | (.returned (.ok res), tr) =>
      let newMozToken := res.Token
      (.returned none,
        ⟨m.Preferences.setString "MOZ_TOKEN" newMozToken, some res.User, m.connected,
          m.relayList, m.selectState⟩,
        tr ++ [Event.setString "MOZ_TOKEN" newMozToken])
  else
    match GetUser w mozToken tr with
    | (.err err, tr) => (.returned (some ("unable perform GetUser err:" ++ err)), m, tr)
    | (.ok user, tr) =>
      (.returned none, ⟨m.Preferences, some user, m.connected, m.relayList, m.selectState⟩, tr)

/-- The search loop of `CheckDevice`: whether some device carries the key. -/
def hasPubkey (devices : List Device) (currPubKey : String) : Bool :=
  devices.any fun d => d.Pubkey == currPubKey

/-- `MozApp.CheckDevice`. With `m.User` nil the first use of `m.User.Devices`
panics. -/
def CheckDevice (w : World) (m : MozApp) (tr : Trace) :
    Outcome (Option Error) × MozApp × Trace :=
  let mozToken := m.Preferences.stringAt "MOZ_TOKEN"
  let currPubKey := m.Preferences.stringAt "PUB_KEY"
  match m.User with
  | none =>
    if currPubKey ≠ "" then (.panicked, m, tr)
    else (.panicked, m, tr ++ [Event.log "Cannot find a matching public key"])
  | some user =>
    let found := currPubKey ≠ "" && hasPubkey user.Devices currPubKey
    let tr := if !found then tr ++ [Event.log "Cannot find a matching public key"] else tr
    if !found && user.Devices.length < 5 then
      match w.generateKey tr with
      | .err err =>
        (.returned (some ("error generating key err:" ++ err)), m, tr ++ [Event.generateKey])
      | .ok (newPubBytes, newPrivBytes) =>
        let newPubKey := base64Encode newPubBytes
        let newPrivKey := base64Encode newPrivBytes
        match UploadDevice w newPubKey mozToken (tr ++ [Event.generateKey]) with
        | (_, tr) =>
          (.returned none,
            ⟨(m.Preferences.setString "PRIV_KEY" newPrivKey).setString "PUB_KEY" newPubKey,
              m.User, m.connected, m.relayList, m.selectState⟩,
            tr ++ [Event.setString "PRIV_KEY" newPrivKey, Event.setString "PUB_KEY" newPubKey])
    else if !found && user.Devices.length ≥ 5 then
      (.returned (some ("you need to remove some devices because Mozilla VPN only supports "
        ++ "up to 5 public keys")), m, tr)
    else
      (.returned none, m, tr)

/-- `MozApp.GetKeys`. -/
def GetKeys (m : MozApp) : String × String :=
  (m.Preferences.stringAt "PRIV_KEY", m.Preferences.stringAt "PUB_KEY")

/-- `MozApp.InitUi`: the widgets are built from `m.relayList.Countries` (a nil
relay list panics there), then the window is shown and run until it is
closed. What the user does in the window is not modelled. -/
def InitUi (m : MozApp) (tr : Trace) : Outcome (Option Error) × MozApp × Trace :=
  match m.relayList with
  | none => (.panicked, m, tr)
  | some _ => (.returned none, m, tr ++ [Event.showAndRun])

/-- `MozApp.GetCurrentDevice`. -/
def GetCurrentDevice (m : MozApp) : Option Device :=
  match m.User with
  | none => none
  | some user =>
    let pubKey := m.Preferences.stringAt "PUB_KEY"
    if pubKey = "" then none
    else user.Devices.find? fun d => d.Pubkey == pubKey

/-- How the process ends. -/
inductive Exit where
  /-- The exit of `log.Fatalf`: the message is logged and the status is 1. -/
  | fatal (msg : String)
  /-- The process dies: a run-time panic or a fatal error of the runtime. -/
  | panicked
  /-- The process blocks for ever. -/
  | blocked
  /-- The function `main` returned. -/
  | finished
deriving DecidableEq, Repr

/-- The last stage of `main` that was entered. -/
inductive Stage where
  | initUser
  | checkDevice
  | initUi
deriving DecidableEq, Repr

/-- The result of running `main`. -/
structure Run where
  exit : Exit
  stage : Stage
  app : MozApp
  trace : Trace
deriving DecidableEq, Repr

/-- The message and exit of `log.Fatalf(format, err)`. -/
def fatalf (stage : Stage) (msg : String) (m : MozApp) (tr : Trace) : Run :=
  ⟨.fatal msg, stage, m, tr ++ [Event.log msg]⟩

/-- The tail of `main` after `CheckDevice` returned nil. -/
def mainInitUi (m : MozApp) (tr : Trace) : Run :=
  match InitUi m tr with
  | (.panicked, m, tr) => ⟨.panicked, .initUi, m, tr⟩
  | (.blocked, m, tr) => ⟨.blocked, .initUi, m, tr⟩
  | (.returned (some err), m, tr) => fatalf .initUi ("Unable to init UI err:" ++ err ++ "\n") m tr
  | (.returned none, m, tr) => ⟨.finished, .initUi, m, tr⟩

/-- The tail of `main` after `InitUser` returned nil. -/
def mainCheckDevice (w : World) (m : MozApp) (tr : Trace) : Run :=
  match CheckDevice w m tr with
  | (.panicked, m, tr) => ⟨.panicked, .checkDevice, m, tr⟩
  | (.blocked, m, tr) => ⟨.blocked, .checkDevice, m, tr⟩
  | (.returned (some err), m, tr) =>
    fatalf .checkDevice ("Unable to register device err:" ++ err ++ "\n") m tr
  | (.returned none, m, tr) => mainInitUi m tr

/-- `main`, started with the persisted preferences `prefs`. -/
def main (w : World) (prefs : Prefs) : Run :=
  match newMozApp w prefs [] with
  | (mozApp, tr) =>
    match InitUser w mozApp tr with
    | (.panicked, m, tr) => ⟨.panicked, .initUser, m, tr⟩
    | (.blocked, m, tr) => ⟨.blocked, .initUser, m, tr⟩
    | (.returned (some err), m, tr) =>
      fatalf .initUser ("Unable to get user err:" ++ err ++ "\n") m tr
    | (.returned none, m, tr) => mainCheckDevice w m tr

/-! ## Reading a trace -/

/-- The requests handed to `m.client.Do`, in order. -/
def networkCalls (tr : Trace) : List Request :=
  tr.filterMap fun e => match e with
    | .httpDo req => some req
    | _ => none

/-- The number of key-pair generations. -/
def keyGenerations (tr : Trace) : Nat :=
  tr.countP fun e => e == Event.generateKey

/-- The events only `Login` and the callback listener produce. -/
def Event.isLogin : Event → Bool
  | .randRead => true
  | .openURL _ => true
  | .handleFunc _ => true
  | .listen _ => true
  | .shutdown => true
  | .request _ => true
  | .send _ => true
  | .recv _ => true
  | _ => false

/-- The request `GetUser` sends for a token. -/
def accountRequest (mozToken : String) : Request :=
  ⟨"GET", "https://vpn.mozilla.org/api/v1/vpn/account",
    [("Authorization", "Bearer " ++ mozToken)], none⟩

/-- The request `verifyLogin` sends for a code and a verifier. -/
def verifyRequest (code verifier : String) : Request :=
  ⟨"POST", "https://vpn.mozilla.org/api/v2/vpn/login/verify",
    [("User-Agent", "Fyne Moz VPN"), ("Content-Type", "application/json")],
    some [("code", code), ("code_verifier", verifier)]⟩

/-- The request `UploadDevice` sends for a public key and a token. -/
def uploadRequest (pubKey mozToken : String) : Request :=
  ⟨"POST", "https://vpn.mozilla.org/api/v1/vpn/device",
    [("Authorization", "Bearer " ++ mozToken), ("User-Agent", "Fyne Moz VPN"),
      ("Content-Type", "application/json")],
    some [("name", "MozVPN"), ("pubkey", pubKey)]⟩

/-- The request `GetRelayList` sends. -/
def relayRequest : Request :=
  ⟨"GET", "https://api.mullvad.net/public/relays/wireguard/v1/", [], none⟩

/-- The number of devices of a list that carry the key. -/
def matchCount (devices : List Device) (pubKey : String) : Nat :=
  devices.countP fun d => d.Pubkey == pubKey

/-- The values an exchange result gives to deliver: the result of a
successful exchange, nothing for a failed one. -/
def exchangeDelivery : Res Root → List Root
  | .ok r => [r]
  | .err _ => []

/-- The trace at the point where the callback handler has read and logged
the `code` parameter. -/
def handlerEntry (queries : List (String × String)) (tr : Trace) : Trace :=
  tr ++ [Event.request (queryGet queries "code"), Event.log ("Code " ++ queryGet queries "code")]

/-- The values of the completed sends on the handoff channel, in order. -/
def sentValues (tr : Trace) : List Root :=
  tr.filterMap fun e => match e with
    | .send r => some r
    | _ => none

/-- The events of a trace that only `Login` and the callback listener produce. -/
def loginEvents (tr : Trace) : Trace := tr.filter Event.isLogin

/-- The network calls of a trace that go to the account endpoint, the one
`GetUser` uses. -/
def accountFetches (tr : Trace) : List Request :=
  (networkCalls tr).filter fun req => req.url == "https://vpn.mozilla.org/api/v1/vpn/account"

/-- The device list of the held user (empty when no user is held). -/
def heldDevices (m : MozApp) : List Device :=
  match m.User with
  | some user => user.Devices
  | none => []

/-- The key-pair invariant as the data model words it: the persisted public
key is absent, or it is the key of exactly one device of the held user. -/
def keyPairInvariant (m : MozApp) : Prop :=
  m.Preferences.stringAt "PUB_KEY" = "" ∨
    matchCount (heldDevices m) (m.Preferences.stringAt "PUB_KEY") = 1

instance (m : MozApp) : Decidable (keyPairInvariant m) := by
  unfold keyPairInvariant
  infer_instance

/-! ## Sample inputs -/

/-- The bytes 0, 1, ..., 31. -/
def sampleBytes : List Byte :=
  [0, 1, 2, 3, 4, 5, 6, 7, 8, 9, 10, 11, 12, 13, 14, 15, 16, 17, 18, 19, 20, 21, 22, 23, 24, 25,
    26, 27, 28, 29, 30, 31]

/-- A stand-in digest for evaluating on samples: the first 32 bytes of the
data, read backwards. -/
def sampleDigest (data : List Byte) : List Byte := (data.take 32).reverse

/-- A device carrying the given public key. -/
def deviceWithKey (key : String) : Device :=
  ⟨"MozVPN", none, key, "10.64.0.2", "fc00:bbbb:bbbb:bb01::2", 0⟩

/-- A user with the given devices. -/
def userWithDevices (devices : List Device) : User :=
  ⟨"user@example.org", "", "User", devices, ⟨⟨true, 0, 0⟩⟩, 5⟩

/-- An application state with the given preferences and user, and an empty
relay list. -/
def appWith (prefs : Prefs) (user : Option User) : MozApp :=
  ⟨prefs, user, false, some ⟨[]⟩, ⟨"", "", ""⟩⟩

/-- A world in which every call succeeds: the server answers 200, the fetched
account has no device, the exchange yields the token `tok-1`, and one callback
with the code `abc123` arrives. -/
def sampleWorld : World :=
  ⟨sampleDigest,
    fun _ => sampleBytes,
    .reported,
    fun _ => .ok (sampleBytes, sampleBytes ++ sampleBytes),
    fun _ req => .ok ⟨200, .ok req.url⟩,
    fun _ => .ok (userWithDevices []),
    fun _ => .ok ⟨userWithDevices [], "tok-1"⟩,
    fun _ => .ok ⟨"MozVPN", "", "", "", "", 0⟩,
    fun _ => .ok ⟨[]⟩,
    fun _ _ => none,
    [[("code", "abc123")]]⟩

/-- Five devices with the keys `k1` to `k5`. -/
def fiveDevices : List Device :=
  [deviceWithKey "k1", deviceWithKey "k2", deviceWithKey "k3", deviceWithKey "k4",
    deviceWithKey "k5"]

/-- Four devices with the keys `k1` to `k4`. -/
def fourDevices : List Device :=
  [deviceWithKey "k1", deviceWithKey "k2", deviceWithKey "k3", deviceWithKey "k4"]

/-- A state with a token, no persisted key and a user with four devices. -/
def fourDeviceApp : MozApp :=
  appWith [("MOZ_TOKEN", "tok-0")] (some (userWithDevices fourDevices))

/-- A state whose persisted key `k1` is carried by two devices of the user. -/
def twinDeviceApp : MozApp :=
  appWith [("MOZ_TOKEN", "tok-0"), ("PUB_KEY", "k1")]
    (some (userWithDevices [deviceWithKey "k1", deviceWithKey "k1"]))

/-- The sample world with a random source that delivers nothing, under the
given behaviour of `rand.Read` on failure. -/
def noRandomWorldWith (onFailure : ReadFailure) : World :=
  ⟨sampleWorld.sha256Sum, fun _ => [], onFailure, sampleWorld.generateKey, sampleWorld.clientDo,
    sampleWorld.decodeUser, sampleWorld.decodeRoot, sampleWorld.decodeUploadRes,
    sampleWorld.decodeRelayList, sampleWorld.openURL, sampleWorld.incoming⟩

/-- A failing random source whose failure is reported as an error. -/
def noRandomWorld : World := noRandomWorldWith .reported

/-- A failing random source whose failure stops the process. -/
def noRandomFatalWorld : World := noRandomWorldWith .fatal

/-- A transport that refuses the requests to `url` and answers 200 to the
others. -/
def failingAt (url : String) : Trace → Request → Res Response :=
  fun _ req => if req.url = url then .err "connection refused" else .ok ⟨200, .ok req.url⟩

/-- A transport that refuses the code exchange while fewer than two network
calls have been made (so the first exchange of a fresh start) and answers 200
otherwise. -/
def failingFirstExchange : Trace → Request → Res Response :=
  fun tr req =>
    if req.url = "https://vpn.mozilla.org/api/v2/vpn/login/verify" ∧ (networkCalls tr).length < 2
    then .err "connection reset" else .ok ⟨200, .ok req.url⟩

/-- The sample world with another transport and other incoming callbacks. -/
def worldWith (clientDo : Trace → Request → Res Response)
    (incoming : List (List (String × String))) : World :=
  ⟨sampleWorld.sha256Sum, sampleWorld.randSource, sampleWorld.readFailure,
    sampleWorld.generateKey, clientDo,
    sampleWorld.decodeUser, sampleWorld.decodeRoot, sampleWorld.decodeUploadRes,
    sampleWorld.decodeRelayList, sampleWorld.openURL, incoming⟩

/-- A world in which the device upload fails. -/
def uploadFailWorld : World :=
  worldWith (failingAt "https://vpn.mozilla.org/api/v1/vpn/device") sampleWorld.incoming

/-- A world in which the relay list fetch fails. -/
def relayFailWorld : World :=
  worldWith (failingAt "https://api.mullvad.net/public/relays/wireguard/v1/") sampleWorld.incoming

/-- A world in which the account fetch fails. -/
def accountFailWorld : World :=
  worldWith (failingAt "https://vpn.mozilla.org/api/v1/vpn/account") sampleWorld.incoming

/-- A world in which the exchange of the first callback fails and a second
callback follows. -/
def exchangeFailWorld : World :=
  worldWith failingFirstExchange [[("code", "bad")], [("code", "abc123")]]

/-- Persisted preferences holding a session token only. -/
def tokenPrefs : Prefs := [("MOZ_TOKEN", "tok-0")]

/-- A world in which the browser cannot be opened. -/
def noBrowserWorld : World :=
  ⟨sampleWorld.sha256Sum, sampleWorld.randSource, sampleWorld.readFailure,
    sampleWorld.generateKey, sampleWorld.clientDo,
    sampleWorld.decodeUser, sampleWorld.decodeRoot, sampleWorld.decodeUploadRes,
    sampleWorld.decodeRelayList, fun _ _ => some "exec: no browser", sampleWorld.incoming⟩

/-! ## Lemmas on base64 -/

set_option maxRecDepth 100000 in
theorem decIndex_encChar : ∀ i : Fin 64, decIndex (encChar i.val) = some i.val ∧
    encChar i.val ≠ padChar := by
  decide

theorem decIndex_encChar_lt {i : Nat} (h : i < 64) : decIndex (encChar i) = some i :=
  (decIndex_encChar ⟨i, h⟩).1

theorem encChar_ne_pad {i : Nat} (h : i < 64) : encChar i ≠ padChar :=
  (decIndex_encChar ⟨i, h⟩).2

theorem toByte_val (b : Byte) : toByte b.val = b := by
  apply Fin.ext
  simp only [toByte]
  omega

theorem decodeChars_encodeChars : ∀ l : List Byte, decodeChars (encodeChars l) = some l := by
  intro l
  induction l using encodeChars.induct with
  | case1 => simp [encodeChars, decodeChars]
  | case2 b0 =>
    have h0 := b0.isLt
    simp only [encodeChars, decodeChars]
    rw [decIndex_encChar_lt (Nat.mod_lt _ (by decide)),
      decIndex_encChar_lt (Nat.mod_lt _ (by decide))]
    simp only [if_true, and_self]
    congr 2
    apply Fin.ext
    simp only [toByte]
    omega
  | case3 b0 b1 =>
    have h0 := b0.isLt
    have h1 := b1.isLt
    simp only [encodeChars, decodeChars]
    rw [decIndex_encChar_lt (Nat.mod_lt _ (by decide)),
      decIndex_encChar_lt (Nat.mod_lt _ (by decide))]
    simp only [if_neg (encChar_ne_pad (Nat.mod_lt _ (by decide : 0 < 64)))]
    rw [decIndex_encChar_lt (Nat.mod_lt _ (by decide))]
    simp only [if_true]
    congr 2
    · apply Fin.ext
      simp only [toByte]
      omega
    · congr 1
      apply Fin.ext
      simp only [toByte]
      omega
  | case4 b0 b1 b2 rest ih =>
    have h0 := b0.isLt
    have h1 := b1.isLt
    have h2 := b2.isLt
    simp only [encodeChars, decodeChars]
    rw [decIndex_encChar_lt (Nat.mod_lt _ (by decide)),
      decIndex_encChar_lt (Nat.mod_lt _ (by decide))]
    simp only [if_neg (encChar_ne_pad (Nat.mod_lt _ (by decide : 0 < 64)))]
    rw [decIndex_encChar_lt (Nat.mod_lt _ (by decide)),
      decIndex_encChar_lt (Nat.mod_lt _ (by decide)), ih]
    simp only
    congr 2
    · apply Fin.ext
      simp only [toByte]
      omega
    · congr 1
      · apply Fin.ext
        simp only [toByte]
        omega
      · congr 1
        apply Fin.ext
        simp only [toByte]
        omega

theorem base64Decode_base64Encode (l : List Byte) : base64Decode (base64Encode l) = some l := by
  simp [base64Decode, base64Encode, decodeChars_encodeChars]

/-! ## The challenge generator -/

theorem randRead_full (onFailure : ReadFailure) (a : List Byte) (h : a.length = 32) :
    randRead onFailure (makeBytes 32) a = .returned (a, false) := by
  simp [randRead, makeBytes, h, List.take_of_length_le]

theorem challengeUrl_head :
    bASE_URL ++ "/" ++ v2_API ++ "/vpn/login/linux?code_challenge_method=S256&code_challenge="
      = "https://vpn.mozilla.org/api/v2/vpn/login/linux?code_challenge_method=S256&code_challenge="
    := by
  decide

theorem challengeUrl_tail : "&port=" ++ "9443" = "&port=9443" := by
  decide

/-- C1: for every 32-byte value `a` delivered by the random source,
`createChallengeUrl` returns the verifier `v`, the standard base64 of `a`, and
the URL made of the fixed login address, the challenge `c` and the port 9443,
where `c` is the standard base64 of SHA-256 of the bytes of the text `v`; so
decoding `c` gives back that digest. -/
theorem createChallengeUrl_spec (onFailure : ReadFailure)
    (sha256Sum : List Byte → List Byte) (a : List Byte) (h : a.length = 32) :
    ∃ v c : String,
      createChallengeUrl onFailure sha256Sum a =
        .returned
          (v, "https://vpn.mozilla.org/api/v2/vpn/login/linux?code_challenge_method=S256&code_challenge="
              ++ c ++ "&port=9443") ∧
      v = base64Encode a ∧
      c = base64Encode (sha256Sum (stringBytes v)) ∧
      base64Decode c = some (sha256Sum (stringBytes v)) := by
  refine ⟨base64Encode a, base64Encode (sha256Sum (stringBytes (base64Encode a))), ?_, rfl, rfl,
    base64Decode_base64Encode _⟩
  simp only [createChallengeUrl, randRead_full onFailure a h]
  rw [String.append_assoc _ "&port=" "9443", challengeUrl_tail, challengeUrl_head]

/-! ## Traces and preferences -/

theorem networkCalls_append (a b : Trace) :
    networkCalls (a ++ b) = networkCalls a ++ networkCalls b := by
  simp [networkCalls, List.filterMap_append]

theorem keyGenerations_append (a b : Trace) :
    keyGenerations (a ++ b) = keyGenerations a + keyGenerations b := by
  simp [keyGenerations, List.countP_append]

theorem stringAt_setString_same (p : Prefs) (key value : String) :
    (p.setString key value).stringAt key = value := by
  simp [Prefs.stringAt, Prefs.setString, List.lookup]

theorem lookup_filter_ne (p : Prefs) (key other : String) (h : other ≠ key) :
    (p.filter fun e => e.1 != key).lookup other = p.lookup other := by
  induction p with
  | nil => rfl
  | cons e rest ih =>
    obtain ⟨k, v⟩ := e
    by_cases hk : k = key
    · subst hk
      have h1 : (other == k) = false := by simpa using h
      simp [List.filter, List.lookup, h1, ih]
    · have h2 : (k != key) = true := by simpa using hk
      simp only [List.filter, h2, List.lookup, ih]

theorem stringAt_setString_ne (p : Prefs) (key value other : String) (h : other ≠ key) :
    (p.setString key value).stringAt other = p.stringAt other := by
  have h1 : (other == key) = false := by simpa using h
  simp only [Prefs.stringAt, Prefs.setString, List.lookup, h1, lookup_filter_ne p key other h]

/-! ## Device provisioning -/

theorem hasPubkey_false (devices : List Device) (key : String)
    (h : ∀ d ∈ devices, d.Pubkey ≠ key) : hasPubkey devices key = false := by
  simp only [hasPubkey, List.any_eq_false, beq_iff_eq]
  intro d hd
  simpa using h d hd

theorem hasPubkey_true (devices : List Device) (key : String)
    (h : ∃ d ∈ devices, d.Pubkey = key) : hasPubkey devices key = true := by
  simp only [hasPubkey, List.any_eq_true, beq_iff_eq]
  exact h

theorem found_false (devices : List Device) (key : String)
    (h : key = "" ∨ ∀ d ∈ devices, d.Pubkey ≠ key) :
    (decide (key ≠ "") && hasPubkey devices key) = false := by
  rcases h with h | h
  · simp [h]
  · simp [hasPubkey_false devices key h]

theorem UploadDevice_trace (w : World) (pubKey mozToken : String) (tr : Trace) :
    (UploadDevice w pubKey mozToken tr).2 = tr ++ [Event.httpDo (uploadRequest pubKey mozToken)] := by
  have hurl : bASE_URL ++ "/" ++ v1_API ++ "/vpn/device"
      = "https://vpn.mozilla.org/api/v1/vpn/device" := by decide
  simp only [UploadDevice, uploadRequest, hurl]
  repeat' split
  all_goals rfl

/-- C2: with 5 or more devices and a persisted public key that is empty or
matches no device, `CheckDevice` returns an error, generates no key-pair,
makes no network call (so no upload) and leaves the application state, with
`PUB_KEY` and `PRIV_KEY`, as it was. -/
theorem CheckDevice_at_limit (w : World) (m : MozApp) (tr : Trace) (user : User)
    (hu : m.User = some user) (h5 : 5 ≤ user.Devices.length)
    (hk : m.Preferences.stringAt "PUB_KEY" = "" ∨
      ∀ d ∈ user.Devices, d.Pubkey ≠ m.Preferences.stringAt "PUB_KEY") :
    ∃ err m1 tr1, CheckDevice w m tr = (.returned (some err), m1, tr1) ∧
      keyGenerations tr1 = keyGenerations tr ∧
      networkCalls tr1 = networkCalls tr ∧
      m1 = m ∧
      m1.Preferences.stringAt "PUB_KEY" = m.Preferences.stringAt "PUB_KEY" ∧
      m1.Preferences.stringAt "PRIV_KEY" = m.Preferences.stringAt "PRIV_KEY" := by
  have hf := found_false user.Devices _ hk
  have h5' : ¬ user.Devices.length < 5 := by omega
  refine ⟨"you need to remove some devices because Mozilla VPN only supports "
    ++ "up to 5 public keys", m, tr ++ [Event.log "Cannot find a matching public key"],
    ?_, ?_, ?_, rfl, rfl, rfl⟩
  · simp only [CheckDevice, hu, hf]
    simp [h5', h5]
  · simp [keyGenerations_append, keyGenerations]
  · simp [networkCalls_append, networkCalls]

/-- The provisioning branch of `CheckDevice`, written out. -/
theorem CheckDevice_provision_eq (w : World) (m : MozApp) (tr : Trace) (user : User)
    (pub priv : List Byte) (hu : m.User = some user) (h5 : user.Devices.length < 5)
    (hk : m.Preferences.stringAt "PUB_KEY" = "" ∨
      ∀ d ∈ user.Devices, d.Pubkey ≠ m.Preferences.stringAt "PUB_KEY")
    (hg : w.generateKey (tr ++ [Event.log "Cannot find a matching public key"])
      = .ok (pub, priv)) :
    CheckDevice w m tr =
      (.returned none,
        ⟨(m.Preferences.setString "PRIV_KEY" (base64Encode priv)).setString "PUB_KEY"
            (base64Encode pub), m.User, m.connected, m.relayList, m.selectState⟩,
        tr ++ [Event.log "Cannot find a matching public key"] ++ [Event.generateKey]
          ++ [Event.httpDo
            (uploadRequest (base64Encode pub) (m.Preferences.stringAt "MOZ_TOKEN"))]
          ++ [Event.setString "PRIV_KEY" (base64Encode priv),
              Event.setString "PUB_KEY" (base64Encode pub)]) := by
  have hf := found_false user.Devices _ hk
  have ht := UploadDevice_trace w (base64Encode pub) (m.Preferences.stringAt "MOZ_TOKEN")
    (tr ++ [Event.log "Cannot find a matching public key"] ++ [Event.generateKey])
  simp only [CheckDevice, hu, hf]
  simp only [Bool.not_false, if_true, h5, decide_True, Bool.and_self, hg]
  rw [← ht]

/-- C3: with fewer than 5 devices and a persisted public key that is empty or
matches no device, when key generation succeeds `CheckDevice` returns success,
generates one key-pair, makes exactly one network call, the upload of the
base64 of the new public key under the persisted session token, and ends with
`PUB_KEY` and `PRIV_KEY` equal to the base64 of the generated keys (whatever
the upload answers, so in particular when it succeeds). -/
theorem CheckDevice_provisions (w : World) (m : MozApp) (tr : Trace) (user : User)
    (pub priv : List Byte) (hu : m.User = some user) (h5 : user.Devices.length < 5)
    (hk : m.Preferences.stringAt "PUB_KEY" = "" ∨
      ∀ d ∈ user.Devices, d.Pubkey ≠ m.Preferences.stringAt "PUB_KEY")
    (hg : w.generateKey (tr ++ [Event.log "Cannot find a matching public key"])
      = .ok (pub, priv)) :
    ∃ m1 tr1, CheckDevice w m tr = (.returned none, m1, tr1) ∧
      keyGenerations tr1 = keyGenerations tr + 1 ∧
      networkCalls tr1 = networkCalls tr ++
        [uploadRequest (base64Encode pub) (m.Preferences.stringAt "MOZ_TOKEN")] ∧
      m1.Preferences.stringAt "PUB_KEY" = base64Encode pub ∧
      m1.Preferences.stringAt "PRIV_KEY" = base64Encode priv ∧
      m1.Preferences.stringAt "MOZ_TOKEN" = m.Preferences.stringAt "MOZ_TOKEN" ∧
      m1.User = m.User := by
  refine ⟨_, _, CheckDevice_provision_eq w m tr user pub priv hu h5 hk hg, ?_, ?_, ?_, ?_, ?_, rfl⟩
  · simp [keyGenerations_append, keyGenerations]
  · simp [networkCalls_append, networkCalls]
  · exact stringAt_setString_same _ _ _
  · rw [stringAt_setString_ne _ _ _ _ (by decide), stringAt_setString_same]
  · rw [stringAt_setString_ne _ _ _ _ (by decide), stringAt_setString_ne _ _ _ _ (by decide)]

/-- The branch of `CheckDevice` taken when the persisted key is found. -/
theorem CheckDevice_found_eq (w : World) (m : MozApp) (tr : Trace) (user : User)
    (hu : m.User = some user) (hne : m.Preferences.stringAt "PUB_KEY" ≠ "")
    (hd : ∃ d ∈ user.Devices, d.Pubkey = m.Preferences.stringAt "PUB_KEY") :
    CheckDevice w m tr = (.returned none, m, tr) := by
  have hf := hasPubkey_true user.Devices _ hd
  simp only [CheckDevice, hu, hf]
  simp [hne]

/-- C4: with a non-empty persisted public key equal to some device's key,
whatever the number of devices, `CheckDevice` returns success and changes
nothing: no event is added to the trace (no key generation, no network
call) and the application state with all its preferences is as before; a
second call in the resulting state does the same. -/
theorem CheckDevice_match_noop (w : World) (m : MozApp) (tr : Trace) (user : User)
    (hu : m.User = some user) (hne : m.Preferences.stringAt "PUB_KEY" ≠ "")
    (hd : ∃ d ∈ user.Devices, d.Pubkey = m.Preferences.stringAt "PUB_KEY") :
    CheckDevice w m tr = (.returned none, m, tr) ∧
      keyGenerations (CheckDevice w m tr).2.2 = keyGenerations tr ∧
      networkCalls (CheckDevice w m tr).2.2 = networkCalls tr ∧
      (CheckDevice w m tr).2.1.Preferences = m.Preferences ∧
      CheckDevice w (CheckDevice w m tr).2.1 (CheckDevice w m tr).2.2
        = (.returned none, m, tr) := by
  have h := CheckDevice_found_eq w m tr user hu hne hd
  simp only [h, and_self]

/-! ## The callback handler -/

theorem verifyLogin_trace (w : World) (code verifier : String) (tr : Trace) :
    (verifyLogin w code verifier tr).2 = tr ++ [Event.httpDo (verifyRequest code verifier)] := by
  have hurl : bASE_URL ++ "/" ++ v2_API ++ "/vpn/login/verify"
      = "https://vpn.mozilla.org/api/v2/vpn/login/verify" := by decide
  simp only [verifyLogin, verifyRequest, hurl]
  repeat' split
  all_goals rfl

theorem createHandler_empty (w : World) (verifier : String) (channel : Chan)
    (queries : List (String × String)) (tr : Trace) (h : queryGet queries "code" = "") :
    createHandler w verifier channel queries tr
      = (.returned (), channel, handlerEntry queries tr) := by
  simp [createHandler, handlerEntry, h]

theorem createHandler_failed (w : World) (verifier : String) (channel : Chan)
    (queries : List (String × String)) (tr : Trace) (h : queryGet queries "code" ≠ "")
    (err : Error)
    (he : (verifyLogin w (queryGet queries "code") verifier (handlerEntry queries tr)).1
      = .err err) :
    createHandler w verifier channel queries tr
      = (.returned (), channel,
          handlerEntry queries tr
            ++ [Event.httpDo (verifyRequest (queryGet queries "code") verifier)]
            ++ [Event.log ("Unable to open URL err:" ++ err ++ "\n")]) := by
  have ht := verifyLogin_trace w (queryGet queries "code") verifier (handlerEntry queries tr)
  generalize hv : verifyLogin w (queryGet queries "code") verifier (handlerEntry queries tr) = v
    at he ht
  obtain ⟨r, t⟩ := v
  simp only at he ht
  subst he ht
  simp only [createHandler, if_neg h]
  simp only [handlerEntry] at hv
  simp only [hv, handlerEntry]

theorem createHandler_exchanged (w : World) (verifier : String) (channel : Chan)
    (queries : List (String × String)) (tr : Trace) (h : queryGet queries "code" ≠ "")
    (r : Root)
    (he : (verifyLogin w (queryGet queries "code") verifier (handlerEntry queries tr)).1
      = .ok r) :
    createHandler w verifier channel queries tr
      = if channel.queued.length < channel.cap then
          (.returned (), ⟨channel.cap, channel.queued ++ [r]⟩,
            handlerEntry queries tr
              ++ [Event.httpDo (verifyRequest (queryGet queries "code") verifier)]
              ++ [Event.send r])
        else
          (.blocked, ⟨channel.cap, channel.queued ++ [r]⟩,
            handlerEntry queries tr
              ++ [Event.httpDo (verifyRequest (queryGet queries "code") verifier)]) := by
  have ht := verifyLogin_trace w (queryGet queries "code") verifier (handlerEntry queries tr)
  generalize hv : verifyLogin w (queryGet queries "code") verifier (handlerEntry queries tr) = v
    at he ht
  obtain ⟨r0, t⟩ := v
  simp only at he ht
  subst he ht
  simp only [createHandler, if_neg h]
  simp only [handlerEntry] at hv
  by_cases hroom : channel.queued.length < channel.cap
  · simp only [hv, handlerEntry, Chan.send, if_pos hroom, decide_eq_true hroom]
  · simp only [hv, handlerEntry, Chan.send, if_neg hroom, decide_eq_false hroom]

theorem sentValues_append (a b : Trace) :
    sentValues (a ++ b) = sentValues a ++ sentValues b := by
  simp [sentValues, List.filterMap_append]

theorem networkCalls_handlerEntry (queries : List (String × String)) (tr : Trace) :
    networkCalls (handlerEntry queries tr) = networkCalls tr := by
  simp [handlerEntry, networkCalls_append, networkCalls]

theorem sentValues_handlerEntry (queries : List (String × String)) (tr : Trace) :
    sentValues (handlerEntry queries tr) = sentValues tr := by
  simp [handlerEntry, sentValues_append, sentValues]

theorem networkCalls_httpDo (req : Request) : networkCalls [Event.httpDo req] = [req] := rfl

theorem networkCalls_log (msg : String) : networkCalls [Event.log msg] = [] := rfl

theorem networkCalls_send (r : Root) : networkCalls [Event.send r] = [] := rfl

theorem sentValues_httpDo (req : Request) : sentValues [Event.httpDo req] = [] := rfl

theorem sentValues_log (msg : String) : sentValues [Event.log msg] = [] := rfl

theorem sentValues_send (r : Root) : sentValues [Event.send r] = [r] := rfl

/-- C5: for every request handled by the handler of `createHandler(verifier,
channel)`, the values queued on the handoff channel grow by exactly the result
of the exchange when the `code` parameter is non-empty and `verifyLogin`
succeeds, and by nothing otherwise; the exchange is the only network call and
is made only for a non-empty `code`; so a value is delivered if and only if
`code` is non-empty and the exchange succeeds. On a channel with a free slot
(as the one-slot channel of `Login` is until then) the send completes, the
value lands in the buffer and the handler returns. -/
theorem createHandler_delivers (w : World) (verifier : String) (channel : Chan)
    (queries : List (String × String)) (tr : Trace) :
    (createHandler w verifier channel queries tr).2.1.queued
      = channel.queued ++
        (if queryGet queries "code" = "" then []
         else exchangeDelivery
          (verifyLogin w (queryGet queries "code") verifier (handlerEntry queries tr)).1) ∧
    networkCalls (createHandler w verifier channel queries tr).2.2
      = networkCalls tr ++
        (if queryGet queries "code" = "" then []
         else [verifyRequest (queryGet queries "code") verifier]) ∧
    ((createHandler w verifier channel queries tr).2.1.queued ≠ channel.queued ↔
      queryGet queries "code" ≠ "" ∧
        ∃ r, (verifyLogin w (queryGet queries "code") verifier (handlerEntry queries tr)).1
          = .ok r) ∧
    (channel.queued.length < channel.cap →
      (createHandler w verifier channel queries tr).1 = .returned () ∧
      (createHandler w verifier channel queries tr).2.1.buf
        = channel.buf ++
          (if queryGet queries "code" = "" then []
           else exchangeDelivery
            (verifyLogin w (queryGet queries "code") verifier (handlerEntry queries tr)).1) ∧
      sentValues (createHandler w verifier channel queries tr).2.2
        = sentValues tr ++
          (if queryGet queries "code" = "" then []
           else exchangeDelivery
            (verifyLogin w (queryGet queries "code") verifier (handlerEntry queries tr)).1)) := by
  by_cases hc : queryGet queries "code" = ""
  · rw [createHandler_empty w verifier channel queries tr hc]
    simp [hc, networkCalls_handlerEntry, sentValues_handlerEntry]
  · cases he : (verifyLogin w (queryGet queries "code") verifier (handlerEntry queries tr)).1 with
    | err e =>
      rw [createHandler_failed w verifier channel queries tr hc e he]
      simp [hc, exchangeDelivery, networkCalls_append, networkCalls_handlerEntry,
        sentValues_append, sentValues_handlerEntry, networkCalls_httpDo, networkCalls_log,
        sentValues_httpDo, sentValues_log]
      exact ⟨rfl, fun _ => rfl⟩
    | ok r =>
      rw [createHandler_exchanged w verifier channel queries tr hc r he]
      by_cases hroom : channel.queued.length < channel.cap
      · have h1 : (channel.queued ++ [r]).length ≤ channel.cap := by
          simp only [List.length_append, List.length_singleton]
          omega
        simp [hc, hroom, exchangeDelivery, networkCalls_append, networkCalls_handlerEntry,
          sentValues_append, sentValues_handlerEntry, networkCalls_httpDo, networkCalls_send,
          sentValues_httpDo, sentValues_send, Chan.buf,
          List.take_of_length_le h1, List.take_of_length_le (Nat.le_of_lt hroom)]
        exact ⟨rfl, rfl⟩
      · simp [hc, hroom, exchangeDelivery, networkCalls_append, networkCalls_handlerEntry,
          networkCalls_httpDo]

/-! ## Session start -/

theorem loginEvents_append (a b : Trace) :
    loginEvents (a ++ b) = loginEvents a ++ loginEvents b := by
  simp [loginEvents, List.filter_append]

theorem accountFetches_append (a b : Trace) :
    accountFetches (a ++ b) = accountFetches a ++ accountFetches b := by
  simp [accountFetches, networkCalls_append, List.filter_append]

theorem GetUser_networkCalls (w : World) (mozToken : String) (tr : Trace) :
    networkCalls (GetUser w mozToken tr).2 = networkCalls tr ++ [accountRequest mozToken] := by
  have hurl : bASE_URL ++ "/" ++ v1_API ++ "/vpn/account"
      = "https://vpn.mozilla.org/api/v1/vpn/account" := by decide
  simp only [GetUser, accountRequest, hurl]
  repeat' split
  all_goals simp only [networkCalls_append, networkCalls_httpDo, networkCalls_log,
    List.append_nil]

theorem GetUser_loginEvents (w : World) (mozToken : String) (tr : Trace) :
    loginEvents (GetUser w mozToken tr).2 = loginEvents tr := by
  simp only [GetUser]
  repeat' split
  all_goals simp [loginEvents_append, loginEvents, Event.isLogin]

theorem InitUser_token_ok (w : World) (m : MozApp) (tr : Trace)
    (h : m.Preferences.stringAt "MOZ_TOKEN" ≠ "") (user : User)
    (hg : (GetUser w (m.Preferences.stringAt "MOZ_TOKEN") tr).1 = .ok user) :
    InitUser w m tr =
      (.returned none, ⟨m.Preferences, some user, m.connected, m.relayList, m.selectState⟩,
        (GetUser w (m.Preferences.stringAt "MOZ_TOKEN") tr).2) := by
  generalize hv : GetUser w (m.Preferences.stringAt "MOZ_TOKEN") tr = v at hg
  obtain ⟨r, t⟩ := v
  simp only at hg
  subst hg
  simp only [InitUser, if_neg h, hv]

theorem InitUser_token_err (w : World) (m : MozApp) (tr : Trace)
    (h : m.Preferences.stringAt "MOZ_TOKEN" ≠ "") (err : Error)
    (hg : (GetUser w (m.Preferences.stringAt "MOZ_TOKEN") tr).1 = .err err) :
    InitUser w m tr =
      (.returned (some ("unable perform GetUser err:" ++ err)), m,
        (GetUser w (m.Preferences.stringAt "MOZ_TOKEN") tr).2) := by
  generalize hv : GetUser w (m.Preferences.stringAt "MOZ_TOKEN") tr = v at hg
  obtain ⟨r, t⟩ := v
  simp only at hg
  subst hg
  simp only [InitUser, if_neg h, hv]

theorem InitUser_token_trace (w : World) (m : MozApp) (tr : Trace)
    (h : m.Preferences.stringAt "MOZ_TOKEN" ≠ "") :
    (InitUser w m tr).2.2 = (GetUser w (m.Preferences.stringAt "MOZ_TOKEN") tr).2 := by
  cases hg : (GetUser w (m.Preferences.stringAt "MOZ_TOKEN") tr).1 with
  | ok user => rw [InitUser_token_ok w m tr h user hg]
  | err e => rw [InitUser_token_err w m tr h e hg]

/-- C6: with a non-empty persisted session token `InitUser` never starts the
browser login (it adds no login or listener event) and makes exactly one
network call, the account fetch of `GetUser` with that token; when `GetUser`
succeeds it returns success with `User` set to the fetched profile, and when
`GetUser` fails it returns an error, without a login, and leaves the
application state (with `User` and the persisted token) unchanged. -/
theorem InitUser_with_token (w : World) (m : MozApp) (tr : Trace)
    (h : m.Preferences.stringAt "MOZ_TOKEN" ≠ "") :
    loginEvents (InitUser w m tr).2.2 = loginEvents tr ∧
    networkCalls (InitUser w m tr).2.2
      = networkCalls tr ++ [accountRequest (m.Preferences.stringAt "MOZ_TOKEN")] ∧
    (∀ user, (GetUser w (m.Preferences.stringAt "MOZ_TOKEN") tr).1 = .ok user →
      (InitUser w m tr).1 = .returned none ∧
      (InitUser w m tr).2.1.User = some user ∧
      (InitUser w m tr).2.1.Preferences = m.Preferences) ∧
    (∀ err, (GetUser w (m.Preferences.stringAt "MOZ_TOKEN") tr).1 = .err err →
      (InitUser w m tr).1 = .returned (some ("unable perform GetUser err:" ++ err)) ∧
      (InitUser w m tr).2.1 = m) := by
  refine ⟨?_, ?_, ?_, ?_⟩
  · rw [InitUser_token_trace w m tr h, GetUser_loginEvents]
  · rw [InitUser_token_trace w m tr h, GetUser_networkCalls]
  · intro user hg
    rw [InitUser_token_ok w m tr h user hg]
    exact ⟨rfl, rfl, rfl⟩
  · intro err hg
    rw [InitUser_token_err w m tr h err hg]
    exact ⟨rfl, rfl⟩

theorem accountFetches_verify (code verifier : String) :
    accountFetches [Event.httpDo (verifyRequest code verifier)] = [] := by
  have hne : ("https://vpn.mozilla.org/api/v2/vpn/login/verify"
      == "https://vpn.mozilla.org/api/v1/vpn/account") = false := by decide
  simp [accountFetches, networkCalls_httpDo, verifyRequest, hne]

theorem accountFetches_handlerEntry (queries : List (String × String)) (tr : Trace) :
    accountFetches (handlerEntry queries tr) = accountFetches tr := by
  simp [accountFetches, networkCalls_handlerEntry]

theorem createHandler_accountFetches (w : World) (verifier : String) (channel : Chan)
    (queries : List (String × String)) (tr : Trace) :
    accountFetches (createHandler w verifier channel queries tr).2.2 = accountFetches tr := by
  by_cases hc : queryGet queries "code" = ""
  · rw [createHandler_empty w verifier channel queries tr hc, accountFetches_handlerEntry]
  · cases he : (verifyLogin w (queryGet queries "code") verifier (handlerEntry queries tr)).1 with
    | err e =>
      rw [createHandler_failed w verifier channel queries tr hc e he]
      simp only [accountFetches_append, accountFetches_verify, accountFetches_handlerEntry,
        List.append_nil]
      simp [accountFetches, networkCalls]
    | ok r =>
      rw [createHandler_exchanged w verifier channel queries tr hc r he]
      split
      · simp only [accountFetches_append, accountFetches_verify, accountFetches_handlerEntry,
          List.append_nil]
        simp [accountFetches, networkCalls]
      · simp only [accountFetches_append, accountFetches_verify, accountFetches_handlerEntry,
          List.append_nil]

theorem awaitCallback_accountFetches (w : World) (verifier : String) :
    ∀ (reqs : List (List (String × String))) (channel : Chan) (tr : Trace),
      accountFetches (awaitCallback w verifier channel reqs tr).2 = accountFetches tr := by
  intro reqs
  induction reqs with
  | nil =>
    intro channel tr
    simp only [awaitCallback]
    split
    · simp only [accountFetches_append]
      simp [accountFetches, networkCalls]
    · rfl
  | cons q rest ih =>
    intro channel tr
    simp only [awaitCallback]
    split
    · simp only [accountFetches_append]
      simp [accountFetches, networkCalls]
    · have hh := createHandler_accountFetches w verifier channel q tr
      generalize createHandler w verifier channel q tr = v at hh
      obtain ⟨o, ch, t⟩ := v
      simp only at hh
      simp only [ih, hh]

theorem Login_died (w : World) (tr : Trace)
    (h : createChallengeUrl w.readFailure w.sha256Sum (w.randSource tr) = .panicked) :
    Login w tr = (.panicked, tr ++ [Event.randRead]) := by
  simp only [Login, h]

theorem Login_stuck (w : World) (tr : Trace)
    (h : createChallengeUrl w.readFailure w.sha256Sum (w.randSource tr) = .blocked) :
    Login w tr = (.blocked, tr ++ [Event.randRead]) := by
  simp only [Login, h]

theorem Login_challenge (w : World) (tr : Trace) (verifier browserUrl : String)
    (h : createChallengeUrl w.readFailure w.sha256Sum (w.randSource tr)
      = .returned (verifier, browserUrl)) :
    Login w tr =
      match w.openURL (startServer (tr ++ [Event.randRead])) browserUrl with
      | some err =>
        (.returned (.err ("unable to open URL err:" ++ err)),
          startServer (tr ++ [Event.randRead]) ++ [Event.openURL browserUrl])
      | none =>
        awaitCallback w verifier (Chan.make 1) w.incoming
          (startServer (tr ++ [Event.randRead]) ++ [Event.openURL browserUrl]) := by
  simp only [Login, h]

theorem Login_accountFetches (w : World) (tr : Trace) :
    accountFetches (Login w tr).2 = accountFetches tr := by
  cases hc : createChallengeUrl w.readFailure w.sha256Sum (w.randSource tr) with
  | panicked =>
    rw [Login_died w tr hc]
    simp only [accountFetches_append]
    simp [accountFetches, networkCalls]
  | blocked =>
    rw [Login_stuck w tr hc]
    simp only [accountFetches_append]
    simp [accountFetches, networkCalls]
  | returned p =>
    obtain ⟨verifier, browserUrl⟩ := p
    rw [Login_challenge w tr verifier browserUrl hc]
    split
    · simp only [startServer, accountFetches_append]
      simp [accountFetches, networkCalls]
    · rw [awaitCallback_accountFetches]
      simp only [startServer, accountFetches_append]
      simp [accountFetches, networkCalls]

/-- C7: with an empty persisted session token, when `Login` returns a result
`r`, `InitUser` returns success with the persisted `MOZ_TOKEN` equal to
`r.Token` and `User` equal to `r.User`; it adds to the trace of `Login` only
the write of the token, and the whole call makes no account fetch (no
`GetUser`). When `Login` returns an error, `InitUser` returns an error and
leaves the application state, with `MOZ_TOKEN` and `User`, unchanged. -/
theorem InitUser_login (w : World) (m : MozApp) (tr : Trace)
    (h : m.Preferences.stringAt "MOZ_TOKEN" = "") :
    (∀ r tr1, Login w tr = (.returned (.ok r), tr1) →
      (InitUser w m tr).1 = .returned none ∧
      (InitUser w m tr).2.1.Preferences.stringAt "MOZ_TOKEN" = r.Token ∧
      (InitUser w m tr).2.1.User = some r.User ∧
      (InitUser w m tr).2.2 = tr1 ++ [Event.setString "MOZ_TOKEN" r.Token] ∧
      accountFetches (InitUser w m tr).2.2 = accountFetches tr) ∧
    (∀ err tr1, Login w tr = (.returned (.err err), tr1) →
      (InitUser w m tr).1 = .returned (some ("unable perform Login err:" ++ err)) ∧
      (InitUser w m tr).2.1 = m ∧
      (InitUser w m tr).2.2 = tr1) := by
  constructor
  · intro r tr1 hl
    have ha := Login_accountFetches w tr
    rw [hl] at ha
    have heq : InitUser w m tr =
        (.returned none,
          ⟨m.Preferences.setString "MOZ_TOKEN" r.Token, some r.User, m.connected,
            m.relayList, m.selectState⟩,
          tr1 ++ [Event.setString "MOZ_TOKEN" r.Token]) := by
      simp only [InitUser, if_pos h, hl]
    rw [heq]
    refine ⟨rfl, stringAt_setString_same _ _ _, rfl, rfl, ?_⟩
    simp only [accountFetches_append] at ha ⊢
    rw [ha]
    simp [accountFetches, networkCalls]
  · intro err tr1 hl
    have heq : InitUser w m tr =
        (.returned (some ("unable perform Login err:" ++ err)), m, tr1) := by
      simp only [InitUser, if_pos h, hl]
    rw [heq]
    exact ⟨rfl, rfl, rfl⟩

/-! ## The key-pair invariant -/

theorem matchCount_pos (devices : List Device) (key : String)
    (h : ∃ d ∈ devices, d.Pubkey = key) : 1 ≤ matchCount devices key := by
  obtain ⟨d, hd, hk⟩ := h
  simp only [matchCount]
  exact List.countP_pos_iff.mpr ⟨d, hd, by simpa using hk⟩

theorem matchCount_eq_count (devices : List Device) (key : String) :
    matchCount devices key = (devices.map Device.Pubkey).count key := by
  induction devices with
  | nil => rfl
  | cons d rest ih =>
    simp only [matchCount] at ih
    by_cases hk : d.Pubkey = key
    · simp [matchCount, List.countP_cons, List.count_cons, hk, ih]
    · simp [matchCount, List.countP_cons, List.count_cons, hk, ih]

theorem matchCount_le_one (devices : List Device) (key : String)
    (h : (devices.map Device.Pubkey).Nodup) : matchCount devices key ≤ 1 := by
  rw [matchCount_eq_count]
  exact List.nodup_iff_count_le_one.mp h key

theorem GetCurrentDevice_found (m : MozApp) (user : User) (hu : m.User = some user)
    (hne : m.Preferences.stringAt "PUB_KEY" ≠ "")
    (hd : ∃ d ∈ user.Devices, d.Pubkey = m.Preferences.stringAt "PUB_KEY") :
    ∃ d, GetCurrentDevice m = some d ∧ d ∈ user.Devices ∧
      d.Pubkey = m.Preferences.stringAt "PUB_KEY" := by
  obtain ⟨d0, hd0, hk0⟩ := hd
  simp only [GetCurrentDevice, hu, if_neg hne]
  cases hf : user.Devices.find? fun d => d.Pubkey == m.Preferences.stringAt "PUB_KEY" with
  | none =>
    have := List.find?_eq_none.mp hf d0 hd0
    simp [hk0] at this
  | some d =>
    refine ⟨d, rfl, List.mem_of_find?_eq_some hf, ?_⟩
    have := List.find?_some hf
    simpa using this

theorem CheckDevice_limit_eq (w : World) (m : MozApp) (tr : Trace) (user : User)
    (hu : m.User = some user) (h5 : ¬ user.Devices.length < 5)
    (hk : m.Preferences.stringAt "PUB_KEY" = "" ∨
      ∀ d ∈ user.Devices, d.Pubkey ≠ m.Preferences.stringAt "PUB_KEY") :
    CheckDevice w m tr =
      (.returned (some ("you need to remove some devices because Mozilla VPN only supports "
        ++ "up to 5 public keys")), m, tr ++ [Event.log "Cannot find a matching public key"]) := by
  have hf := found_false user.Devices _ hk
  have h5' : 5 ≤ user.Devices.length := by omega
  simp only [CheckDevice, hu, hf]
  simp [h5, h5']

theorem CheckDevice_keygen_failed (w : World) (m : MozApp) (tr : Trace) (user : User)
    (err : Error) (hu : m.User = some user) (h5 : user.Devices.length < 5)
    (hk : m.Preferences.stringAt "PUB_KEY" = "" ∨
      ∀ d ∈ user.Devices, d.Pubkey ≠ m.Preferences.stringAt "PUB_KEY")
    (hg : w.generateKey (tr ++ [Event.log "Cannot find a matching public key"]) = .err err) :
    CheckDevice w m tr =
      (.returned (some ("error generating key err:" ++ err)), m,
        tr ++ [Event.log "Cannot find a matching public key"] ++ [Event.generateKey]) := by
  have hf := found_false user.Devices _ hk
  simp only [CheckDevice, hu, hf]
  simp only [Bool.not_false, if_true, h5, decide_True, Bool.and_self, hg]

theorem CheckDevice_no_user (w : World) (m : MozApp) (tr : Trace) (hu : m.User = none) :
    (CheckDevice w m tr).1 = .panicked := by
  simp only [CheckDevice, hu]
  split <;> rfl

/-- The two ways in which `CheckDevice` returns nil. -/
theorem CheckDevice_returned_nil (w : World) (m : MozApp) (tr : Trace) (m1 : MozApp)
    (tr1 : Trace) (hr : CheckDevice w m tr = (.returned none, m1, tr1)) :
    ∃ user, m.User = some user ∧
      ((m.Preferences.stringAt "PUB_KEY" ≠ "" ∧
          (∃ d ∈ user.Devices, d.Pubkey = m.Preferences.stringAt "PUB_KEY") ∧
          m1 = m ∧ tr1 = tr) ∨
        ((m.Preferences.stringAt "PUB_KEY" = "" ∨
            ∀ d ∈ user.Devices, d.Pubkey ≠ m.Preferences.stringAt "PUB_KEY") ∧
          user.Devices.length < 5 ∧
          ∃ pub priv,
            w.generateKey (tr ++ [Event.log "Cannot find a matching public key"])
              = .ok (pub, priv) ∧
            m1 = ⟨(m.Preferences.setString "PRIV_KEY" (base64Encode priv)).setString "PUB_KEY"
              (base64Encode pub), m.User, m.connected, m.relayList, m.selectState⟩)) := by
  cases hu : m.User with
  | none =>
    have hp := CheckDevice_no_user w m tr hu
    rw [hr] at hp
    cases hp
  | some user =>
    refine ⟨user, rfl, ?_⟩
    by_cases hne : m.Preferences.stringAt "PUB_KEY" = ""
    · right
      by_cases h5 : user.Devices.length < 5
      · cases hg : w.generateKey (tr ++ [Event.log "Cannot find a matching public key"]) with
        | err e =>
          rw [CheckDevice_keygen_failed w m tr user e hu h5 (Or.inl hne) hg] at hr
          cases hr
        | ok keys =>
          obtain ⟨pub, priv⟩ := keys
          rw [CheckDevice_provision_eq w m tr user pub priv hu h5 (Or.inl hne) hg] at hr
          refine ⟨Or.inl hne, h5, pub, priv, rfl, ?_⟩
          cases hr
          rw [hu]
      · rw [CheckDevice_limit_eq w m tr user hu h5 (Or.inl hne)] at hr
        cases hr
    · by_cases hd : ∃ d ∈ user.Devices, d.Pubkey = m.Preferences.stringAt "PUB_KEY"
      · left
        rw [CheckDevice_found_eq w m tr user hu hne hd] at hr
        cases hr
        exact ⟨hne, hd, rfl, rfl⟩
      · right
        have hk : ∀ d ∈ user.Devices, d.Pubkey ≠ m.Preferences.stringAt "PUB_KEY" := by
          intro d hmem heq
          exact hd ⟨d, hmem, heq⟩
        by_cases h5 : user.Devices.length < 5
        · cases hg : w.generateKey (tr ++ [Event.log "Cannot find a matching public key"]) with
          | err e =>
            rw [CheckDevice_keygen_failed w m tr user e hu h5 (Or.inr hk) hg] at hr
            cases hr
          | ok keys =>
            obtain ⟨pub, priv⟩ := keys
            rw [CheckDevice_provision_eq w m tr user pub priv hu h5 (Or.inr hk) hg] at hr
            refine ⟨Or.inr hk, h5, pub, priv, rfl, ?_⟩
            cases hr
            rw [hu]
        · rw [CheckDevice_limit_eq w m tr user hu h5 (Or.inr hk)] at hr
          cases hr

/-- C8 (as amended): after a successful return of `CheckDevice` the held
device list is the one held before, and either the persisted `PUB_KEY` was
found: the preferences are unchanged, `PUB_KEY` is non-empty and is the key of
at least one held device (of exactly one when the held keys are pairwise
distinct), and `GetCurrentDevice` returns a device with that key; or a
key-pair was provisioned: `PUB_KEY` and `PRIV_KEY` are the base64 of the newly
generated keys, and the new key has not been added to the held list. -/
theorem CheckDevice_keypair (w : World) (m : MozApp) (tr : Trace) (m1 : MozApp) (tr1 : Trace)
    (hr : CheckDevice w m tr = (.returned none, m1, tr1)) :
    heldDevices m1 = heldDevices m ∧
    ((m1.Preferences = m.Preferences ∧
        m1.Preferences.stringAt "PUB_KEY" ≠ "" ∧
        1 ≤ matchCount (heldDevices m1) (m1.Preferences.stringAt "PUB_KEY") ∧
        (((heldDevices m1).map Device.Pubkey).Nodup →
          matchCount (heldDevices m1) (m1.Preferences.stringAt "PUB_KEY") = 1) ∧
        ∃ d, GetCurrentDevice m1 = some d ∧ d ∈ heldDevices m1 ∧
          d.Pubkey = m1.Preferences.stringAt "PUB_KEY") ∨
      ∃ pub priv,
        w.generateKey (tr ++ [Event.log "Cannot find a matching public key"])
          = .ok (pub, priv) ∧
        m1.Preferences.stringAt "PUB_KEY" = base64Encode pub ∧
        m1.Preferences.stringAt "PRIV_KEY" = base64Encode priv) := by
  obtain ⟨user, hu, hcase⟩ := CheckDevice_returned_nil w m tr m1 tr1 hr
  rcases hcase with ⟨hne, hd, hm, _⟩ | ⟨_, _, pub, priv, hg, hm⟩
  · subst hm
    have hheld : heldDevices m1 = user.Devices := by simp [heldDevices, hu]
    refine ⟨rfl, Or.inl ⟨rfl, hne, ?_, ?_, ?_⟩⟩
    · rw [hheld]
      exact matchCount_pos _ _ hd
    · intro hnd
      rw [hheld] at hnd ⊢
      exact Nat.le_antisymm (matchCount_le_one _ _ hnd) (matchCount_pos _ _ hd)
    · rw [hheld]
      exact GetCurrentDevice_found m1 user hu hne hd
  · subst hm
    refine ⟨rfl, Or.inr ⟨pub, priv, hg, ?_, ?_⟩⟩
    · exact stringAt_setString_same _ _ _
    · simp only
      rw [stringAt_setString_ne _ _ _ _ (by decide), stringAt_setString_same]

/-! ## The random source -/

theorem randRead_enough (onFailure : ReadFailure) (delivered : List Byte)
    (h : 32 ≤ delivered.length) :
    randRead onFailure (makeBytes 32) delivered = .returned (delivered.take 32, false) := by
  have h1 : ¬ delivered.length < 32 := by omega
  simp [randRead, makeBytes, h1, h]

theorem randRead_ok (onFailure : ReadFailure) (delivered a : List Byte)
    (h : randRead onFailure (makeBytes 32) delivered = .returned (a, false)) :
    32 ≤ delivered.length ∧ a = delivered.take 32 := by
  by_cases hs : delivered.length < 32
  · cases onFailure <;> simp [randRead, makeBytes, hs] at h
  · have h32 : 32 ≤ delivered.length := by omega
    rw [randRead_enough onFailure delivered h32] at h
    simp only [Outcome.returned.injEq, Prod.mk.injEq, and_true] at h
    exact ⟨h32, h.symm⟩

/-- C9 (as amended): in every case in which the read of the 32 random bytes
succeeds, `createChallengeUrl` succeeds: it returns a verifier and a URL, the
verifier being the base64 of the 32 bytes read and the challenge in the URL
the base64 of SHA-256 of the verifier text. The read succeeds whenever the
source delivers at least 32 bytes. Nothing is stated about a failed read. -/
theorem createChallengeUrl_succeeds (onFailure : ReadFailure)
    (sha256Sum : List Byte → List Byte) (delivered : List Byte) :
    (32 ≤ delivered.length →
      randRead onFailure (makeBytes 32) delivered = .returned (delivered.take 32, false)) ∧
    (∀ a : List Byte, randRead onFailure (makeBytes 32) delivered = .returned (a, false) →
      ∃ v c : String,
        createChallengeUrl onFailure sha256Sum delivered =
          .returned
            (v, "https://vpn.mozilla.org/api/v2/vpn/login/linux?code_challenge_method=S256&code_challenge="
                ++ c ++ "&port=9443") ∧
        a.length = 32 ∧
        v = base64Encode a ∧
        c = base64Encode (sha256Sum (stringBytes v))) := by
  refine ⟨randRead_enough onFailure delivered, fun a h => ?_⟩
  obtain ⟨h32, ha⟩ := randRead_ok onFailure delivered a h
  refine ⟨base64Encode a, base64Encode (sha256Sum (stringBytes (base64Encode a))), ?_, ?_,
    rfl, rfl⟩
  · simp only [createChallengeUrl, h]
    rw [String.append_assoc _ "&port=" "9443", challengeUrl_tail, challengeUrl_head]
  · rw [ha, List.length_take]
    omega

/-! ## Startup -/

theorem awaitCallback_no_err (w : World) (verifier : String) :
    ∀ (reqs : List (List (String × String))) (channel : Chan) (tr : Trace) (e : Error),
      (awaitCallback w verifier channel reqs tr).1 ≠ .returned (.err e) := by
  intro reqs
  induction reqs with
  | nil =>
    intro channel tr e
    simp only [awaitCallback]
    split <;> simp
  | cons q rest ih =>
    intro channel tr e
    simp only [awaitCallback]
    split
    · simp
    · exact ih _ _ e

theorem Login_err (w : World) (tr : Trace) (e : Error)
    (h : (Login w tr).1 = .returned (.err e)) :
    ∃ err, e = "unable to open URL err:" ++ err := by
  cases hc : createChallengeUrl w.readFailure w.sha256Sum (w.randSource tr) with
  | panicked =>
    rw [Login_died w tr hc] at h
    cases h
  | blocked =>
    rw [Login_stuck w tr hc] at h
    cases h
  | returned p =>
    obtain ⟨verifier, browserUrl⟩ := p
    rw [Login_challenge w tr verifier browserUrl hc] at h
    split at h
    · rename_i err _
      simp only [Outcome.returned.injEq, Res.err.injEq] at h
      exact ⟨err, h.symm⟩
    · exact absurd h (awaitCallback_no_err w _ _ _ _ e)

theorem newMozApp_preferences (w : World) (prefs : Prefs) (tr : Trace) :
    (newMozApp w prefs tr).1.Preferences = prefs := by
  simp only [newMozApp]
  split <;> rfl

theorem newMozApp_relay_failed (w : World) (prefs : Prefs) (tr : Trace) (e : Error)
    (h : (GetRelayList w tr).1 = .err e) :
    newMozApp w prefs tr =
      (⟨prefs, none, false, none, ⟨"", "", ""⟩⟩,
        (GetRelayList w tr).2 ++ [Event.log ("Unable to get relay list err:" ++ e ++ "\n")]) := by
  generalize hv : GetRelayList w tr = v at h
  obtain ⟨r, t⟩ := v
  simp only at h
  subst h
  simp only [newMozApp, hv]

theorem main_stage_initUi (w : World) (prefs : Prefs) :
    (main w prefs).stage = .initUi ↔
      ∃ m1 tr1 m2 tr2,
        InitUser w (newMozApp w prefs []).1 (newMozApp w prefs []).2 = (.returned none, m1, tr1) ∧
        CheckDevice w m1 tr1 = (.returned none, m2, tr2) := by
  simp only [main]
  generalize hv : InitUser w (newMozApp w prefs []).1 (newMozApp w prefs []).2 = v
  obtain ⟨o, m1, tr1⟩ := v
  constructor
  · intro h
    cases o with
    | panicked => simp at h
    | blocked => simp at h
    | returned r =>
      cases r with
      | some err => simp [fatalf] at h
      | none =>
        simp only [mainCheckDevice] at h
        generalize hv2 : CheckDevice w m1 tr1 = v2 at h
        obtain ⟨o2, m2, tr2⟩ := v2
        cases o2 with
        | panicked => simp at h
        | blocked => simp at h
        | returned r2 =>
          cases r2 with
          | some err => simp [fatalf] at h
          | none => exact ⟨m1, tr1, m2, tr2, rfl, hv2⟩
  · rintro ⟨a, b, c, d, h1, h2⟩
    cases h1
    simp only [mainCheckDevice, h2, mainInitUi]
    split <;> simp [fatalf]

theorem main_account_failed (w : World) (prefs : Prefs)
    (h : prefs.stringAt "MOZ_TOKEN" ≠ "") (e : Error)
    (hg : (GetUser w (prefs.stringAt "MOZ_TOKEN") (newMozApp w prefs []).2).1 = .err e) :
    (main w prefs).exit
        = .fatal ("Unable to get user err:" ++ ("unable perform GetUser err:" ++ e) ++ "\n") ∧
      (main w prefs).stage = .initUser := by
  have hp := newMozApp_preferences w prefs []
  have h1 : (newMozApp w prefs []).1.Preferences.stringAt "MOZ_TOKEN" ≠ "" := by rwa [hp]
  have hg1 : (GetUser w ((newMozApp w prefs []).1.Preferences.stringAt "MOZ_TOKEN")
      (newMozApp w prefs []).2).1 = .err e := by
    rw [hp]
    exact hg
  have hi := InitUser_token_err w (newMozApp w prefs []).1 (newMozApp w prefs []).2 h1 e hg1
  simp only [main, hi, fatalf, and_self]

theorem mainCheckDevice_provision (w : World) (m : MozApp) (tr : Trace) (user : User)
    (pub priv : List Byte) (hu : m.User = some user) (h5 : user.Devices.length < 5)
    (hk : m.Preferences.stringAt "PUB_KEY" = "" ∨
      ∀ d ∈ user.Devices, d.Pubkey ≠ m.Preferences.stringAt "PUB_KEY")
    (hg : w.generateKey (tr ++ [Event.log "Cannot find a matching public key"])
      = .ok (pub, priv)) :
    (CheckDevice w m tr).1 = .returned none ∧ (mainCheckDevice w m tr).stage = .initUi := by
  have hc := CheckDevice_provision_eq w m tr user pub priv hu h5 hk hg
  refine ⟨by rw [hc], ?_⟩
  simp only [mainCheckDevice, hc, mainInitUi]
  split <;> simp [fatalf]

/-- C10 (as amended): in the startup sequence of `main`, `InitUi` is entered
exactly when `InitUser` and `CheckDevice` both return nil. A failed account
fetch aborts startup with a fatal error in `InitUser`, before `CheckDevice`
and `InitUi`. The other network calls do not abort it: a failed relay-list
fetch is logged by `newMozApp`, which still builds the application (with no
relay list); a failed code exchange makes the callback handler log the error
and return without touching the channel, and `Login` returns an error only
for a failed browser launch; and on the provisioning path `CheckDevice` returns nil whatever the
upload answers, so startup goes on to `InitUi`. -/
theorem main_network_failures (w : World) (prefs : Prefs) :
    ((main w prefs).stage = .initUi ↔
      ∃ m1 tr1 m2 tr2,
        InitUser w (newMozApp w prefs []).1 (newMozApp w prefs []).2 = (.returned none, m1, tr1) ∧
        CheckDevice w m1 tr1 = (.returned none, m2, tr2)) ∧
    (prefs.stringAt "MOZ_TOKEN" ≠ "" →
      ∀ e, (GetUser w (prefs.stringAt "MOZ_TOKEN") (newMozApp w prefs []).2).1 = .err e →
        (main w prefs).exit
            = .fatal ("Unable to get user err:" ++ ("unable perform GetUser err:" ++ e) ++ "\n") ∧
          (main w prefs).stage = .initUser) ∧
    (∀ e, (GetRelayList w []).1 = .err e →
      newMozApp w prefs [] =
        (⟨prefs, none, false, none, ⟨"", "", ""⟩⟩,
          (GetRelayList w []).2 ++ [Event.log ("Unable to get relay list err:" ++ e ++ "\n")])) ∧
    (∀ (verifier : String) (channel : Chan) (queries : List (String × String)) (tr : Trace)
        (e : Error),
      queryGet queries "code" ≠ "" →
      (verifyLogin w (queryGet queries "code") verifier (handlerEntry queries tr)).1 = .err e →
        (createHandler w verifier channel queries tr).1 = .returned () ∧
          (createHandler w verifier channel queries tr).2.1 = channel ∧
          (createHandler w verifier channel queries tr).2.2 =
            handlerEntry queries tr
              ++ [Event.httpDo (verifyRequest (queryGet queries "code") verifier)]
              ++ [Event.log ("Unable to open URL err:" ++ e ++ "\n")]) ∧
    (∀ (tr : Trace) (e : Error), (Login w tr).1 = .returned (.err e) →
      ∃ err, e = "unable to open URL err:" ++ err) ∧
    (∀ (m : MozApp) (tr : Trace) (user : User) (pub priv : List Byte),
      m.User = some user → user.Devices.length < 5 →
      (m.Preferences.stringAt "PUB_KEY" = "" ∨
        ∀ d ∈ user.Devices, d.Pubkey ≠ m.Preferences.stringAt "PUB_KEY") →
      w.generateKey (tr ++ [Event.log "Cannot find a matching public key"]) = .ok (pub, priv) →
        (CheckDevice w m tr).1 = .returned none ∧ (mainCheckDevice w m tr).stage = .initUi) := by
  refine ⟨main_stage_initUi w prefs, ?_, ?_, ?_, ?_, ?_⟩
  · intro h e hg
    exact main_account_failed w prefs h e hg
  · intro e h
    exact newMozApp_relay_failed w prefs [] e h
  · intro verifier channel queries tr e hc he
    rw [createHandler_failed w verifier channel queries tr hc e he]
    exact ⟨rfl, rfl, rfl⟩
  · intro tr e h
    exact Login_err w tr e h
  · intro m tr user pub priv hu h5 hk hg
    exact mainCheckDevice_provision w m tr user pub priv hu h5 hk hg

/-! ## A failed upload -/

/-- C11 (as amended): when `CheckDevice` takes the provisioning path (no
matching key, fewer than 5 devices, key generation succeeds) and the upload of
the new public key fails, `CheckDevice` ignores the failure: it logs nothing
about it, returns success and persists the new key-pair all the same, so
`PUB_KEY` and `PRIV_KEY` end as the base64 of the newly generated keys. -/
theorem CheckDevice_upload_failed (w : World) (m : MozApp) (tr : Trace) (user : User)
    (pub priv : List Byte) (e : Error) (hu : m.User = some user)
    (h5 : user.Devices.length < 5)
    (hk : m.Preferences.stringAt "PUB_KEY" = "" ∨
      ∀ d ∈ user.Devices, d.Pubkey ≠ m.Preferences.stringAt "PUB_KEY")
    (hg : w.generateKey (tr ++ [Event.log "Cannot find a matching public key"])
      = .ok (pub, priv))
    (_hup : (UploadDevice w (base64Encode pub) (m.Preferences.stringAt "MOZ_TOKEN")
      (tr ++ [Event.log "Cannot find a matching public key"] ++ [Event.generateKey])).1
        = .err e) :
    (CheckDevice w m tr).1 = .returned none ∧
    (CheckDevice w m tr).2.1.Preferences.stringAt "PUB_KEY" = base64Encode pub ∧
    (CheckDevice w m tr).2.1.Preferences.stringAt "PRIV_KEY" = base64Encode priv ∧
    (CheckDevice w m tr).2.2 =
      tr ++ [Event.log "Cannot find a matching public key"] ++ [Event.generateKey]
        ++ [Event.httpDo (uploadRequest (base64Encode pub) (m.Preferences.stringAt "MOZ_TOKEN"))]
        ++ [Event.setString "PRIV_KEY" (base64Encode priv),
            Event.setString "PUB_KEY" (base64Encode pub)] := by
  rw [CheckDevice_provision_eq w m tr user pub priv hu h5 hk hg]
  refine ⟨rfl, stringAt_setString_same _ _ _, ?_, rfl⟩
  simp only
  rw [stringAt_setString_ne _ _ _ _ (by decide), stringAt_setString_same]

/-! ## The listener and its shutdown -/

theorem createHandler_extends (w : World) (verifier : String) (channel : Chan)
    (queries : List (String × String)) (tr : Trace) :
    ∃ added, (createHandler w verifier channel queries tr).2.2 = tr ++ added := by
  by_cases hc : queryGet queries "code" = ""
  · rw [createHandler_empty w verifier channel queries tr hc]
    exact ⟨_, rfl⟩
  · cases he : (verifyLogin w (queryGet queries "code") verifier (handlerEntry queries tr)).1 with
    | err e =>
      rw [createHandler_failed w verifier channel queries tr hc e he]
      simp only [handlerEntry, List.append_assoc]
      exact ⟨_, rfl⟩
    | ok r =>
      rw [createHandler_exchanged w verifier channel queries tr hc r he]
      split
      · simp only [handlerEntry, List.append_assoc]
        exact ⟨_, rfl⟩
      · simp only [handlerEntry, List.append_assoc]
        exact ⟨_, rfl⟩

theorem awaitCallback_ok (w : World) (verifier : String) :
    ∀ (reqs : List (List (String × String))) (channel : Chan) (tr : Trace) (r : Root)
      (tr1 : Trace),
      awaitCallback w verifier channel reqs tr = (.returned (.ok r), tr1) →
        ∃ added, tr1 = tr ++ added ++ [Event.recv r, Event.shutdown] := by
  intro reqs
  induction reqs with
  | nil =>
    intro channel tr r tr1 h
    simp only [awaitCallback] at h
    split at h
    · cases h
      exact ⟨[], by simp⟩
    · cases h
  | cons q rest ih =>
    intro channel tr r tr1 h
    simp only [awaitCallback] at h
    split at h
    · cases h
      exact ⟨[], by simp⟩
    · obtain ⟨a1, ha1⟩ := createHandler_extends w verifier channel q tr
      generalize createHandler w verifier channel q tr = v at h ha1
      obtain ⟨o, ch, t⟩ := v
      simp only at h ha1
      obtain ⟨a2, ha2⟩ := ih ch t r tr1 h
      subst ha1
      exact ⟨a1 ++ a2, by simp [ha2]⟩

theorem Login_open_failed_eq (w : World) (tr : Trace) (verifier browserUrl : String)
    (err : Error)
    (hc : createChallengeUrl w.readFailure w.sha256Sum (w.randSource tr)
      = .returned (verifier, browserUrl))
    (h : w.openURL (startServer (tr ++ [Event.randRead])) browserUrl = some err) :
    Login w tr =
      (.returned (.err ("unable to open URL err:" ++ err)),
        tr ++ [Event.randRead, Event.handleFunc "/", Event.listen ":9443",
          Event.openURL browserUrl]) := by
  rw [Login_challenge w tr verifier browserUrl hc]
  simp only [h]
  simp [startServer]

theorem Login_ok_trace (w : World) (tr : Trace) (r : Root) (tr1 : Trace)
    (h : Login w tr = (.returned (.ok r), tr1)) :
    ∃ verifier browserUrl added,
      createChallengeUrl w.readFailure w.sha256Sum (w.randSource tr)
        = .returned (verifier, browserUrl) ∧
      tr1 = tr ++ [Event.randRead, Event.handleFunc "/", Event.listen ":9443",
          Event.openURL browserUrl]
        ++ added ++ [Event.recv r, Event.shutdown] := by
  cases hc : createChallengeUrl w.readFailure w.sha256Sum (w.randSource tr) with
  | panicked =>
    rw [Login_died w tr hc] at h
    cases h
  | blocked =>
    rw [Login_stuck w tr hc] at h
    cases h
  | returned p =>
    obtain ⟨verifier, browserUrl⟩ := p
    rw [Login_challenge w tr verifier browserUrl hc] at h
    split at h
    · cases h
    · obtain ⟨added, ha⟩ := awaitCallback_ok w _ _ _ _ r tr1 h
      exact ⟨verifier, browserUrl, added, rfl, by simp [ha, startServer]⟩

/-- C12: what `Login` does with the listener. When it returns a result, it
has started the listener on port 9443 and its last two steps are the receive
on the handoff channel and the shutdown, in this order. When the challenge
has been produced and the browser cannot be opened it returns the error right
after the launch attempt: the listener has been started and no shutdown has
been made, whereas the claim asks for a shutdown before every return. -/
theorem Login_shutdown (w : World) (tr : Trace) :
    (∀ (r : Root) (tr1 : Trace), Login w tr = (.returned (.ok r), tr1) →
      ∃ verifier browserUrl added,
        createChallengeUrl w.readFailure w.sha256Sum (w.randSource tr)
          = .returned (verifier, browserUrl) ∧
        tr1 = tr ++ [Event.randRead, Event.handleFunc "/", Event.listen ":9443",
            Event.openURL browserUrl]
          ++ added ++ [Event.recv r, Event.shutdown]) ∧
    (∀ (verifier browserUrl : String) (err : Error),
      createChallengeUrl w.readFailure w.sha256Sum (w.randSource tr)
        = .returned (verifier, browserUrl) →
      w.openURL (startServer (tr ++ [Event.randRead])) browserUrl = some err →
      Login w tr =
        (.returned (.err ("unable to open URL err:" ++ err)),
          tr ++ [Event.randRead, Event.handleFunc "/", Event.listen ":9443",
            Event.openURL browserUrl]) ∧
      Event.shutdown ∉ [Event.randRead, Event.handleFunc "/", Event.listen ":9443",
        Event.openURL browserUrl]) := by
  refine ⟨fun r tr1 h => Login_ok_trace w tr r tr1 h, fun verifier browserUrl err hc h => ?_⟩
  refine ⟨Login_open_failed_eq w tr verifier browserUrl err hc h, ?_⟩
  simp

/-! ## Evaluation on samples -/

/-- The challenge for the sample bytes 0..31 under the stand-in digest. -/
theorem createChallengeUrl_spec_witness :
    sampleBytes.length = 32 ∧
    ∃ v c : String,
      createChallengeUrl .reported sampleDigest sampleBytes =
        .returned
          (v, "https://vpn.mozilla.org/api/v2/vpn/login/linux?code_challenge_method=S256&code_challenge="
              ++ c ++ "&port=9443") ∧
      v = base64Encode sampleBytes ∧
      c = base64Encode (sampleDigest (stringBytes v)) ∧
      base64Decode c = some (sampleDigest (stringBytes v)) :=
  ⟨by decide, createChallengeUrl_spec .reported sampleDigest sampleBytes (by decide)⟩

/-- Five devices, no persisted key: the limit error. -/
theorem CheckDevice_at_limit_witness :
    ∃ err m1 tr1,
      CheckDevice sampleWorld (appWith [("MOZ_TOKEN", "tok-0")] (some (userWithDevices fiveDevices)))
        [] = (.returned (some err), m1, tr1) ∧
      keyGenerations tr1 = keyGenerations [] ∧
      networkCalls tr1 = networkCalls [] ∧
      m1 = appWith [("MOZ_TOKEN", "tok-0")] (some (userWithDevices fiveDevices)) ∧
      m1.Preferences.stringAt "PUB_KEY" =
        (appWith [("MOZ_TOKEN", "tok-0")]
          (some (userWithDevices fiveDevices))).Preferences.stringAt "PUB_KEY" ∧
      m1.Preferences.stringAt "PRIV_KEY" =
        (appWith [("MOZ_TOKEN", "tok-0")]
          (some (userWithDevices fiveDevices))).Preferences.stringAt "PRIV_KEY" :=
  CheckDevice_at_limit sampleWorld _ [] (userWithDevices fiveDevices) rfl (by decide)
    (Or.inl (by decide))

/-- Four devices, no persisted key: one key-pair, one upload, keys persisted. -/
theorem CheckDevice_provisions_witness :
    ∃ m1 tr1,
      CheckDevice sampleWorld (appWith [("MOZ_TOKEN", "tok-0")] (some (userWithDevices fourDevices)))
        [] = (.returned none, m1, tr1) ∧
      keyGenerations tr1 = keyGenerations [] + 1 ∧
      networkCalls tr1 = networkCalls [] ++ [uploadRequest (base64Encode sampleBytes)
        ((appWith [("MOZ_TOKEN", "tok-0")]
          (some (userWithDevices fourDevices))).Preferences.stringAt "MOZ_TOKEN")] ∧
      m1.Preferences.stringAt "PUB_KEY" = base64Encode sampleBytes ∧
      m1.Preferences.stringAt "PRIV_KEY" = base64Encode (sampleBytes ++ sampleBytes) ∧
      m1.Preferences.stringAt "MOZ_TOKEN" =
        (appWith [("MOZ_TOKEN", "tok-0")]
          (some (userWithDevices fourDevices))).Preferences.stringAt "MOZ_TOKEN" ∧
      m1.User = (appWith [("MOZ_TOKEN", "tok-0")] (some (userWithDevices fourDevices))).User :=
  CheckDevice_provisions sampleWorld _ [] (userWithDevices fourDevices) sampleBytes
    (sampleBytes ++ sampleBytes) rfl (by decide) (Or.inl (by decide)) rfl

/-- Five devices, the persisted key `k3` among them: nothing happens. -/
theorem CheckDevice_match_noop_witness :
    CheckDevice sampleWorld
        (appWith [("PUB_KEY", "k3")] (some (userWithDevices fiveDevices))) []
      = (.returned none, appWith [("PUB_KEY", "k3")] (some (userWithDevices fiveDevices)), []) :=
  (CheckDevice_match_noop sampleWorld _ [] (userWithDevices fiveDevices) rfl (by decide)
    ⟨deviceWithKey "k3", by decide, by decide⟩).1

/-- After provisioning for a user with four devices the persisted key matches
no held device; with the persisted key `k1` carried by two held devices the
call succeeds and the key matches two of them. -/
theorem CheckDevice_keypair_counterexample :
    ((CheckDevice sampleWorld fourDeviceApp []).1 = .returned none ∧
      (CheckDevice sampleWorld fourDeviceApp []).2.1.Preferences.stringAt "PUB_KEY"
        = "AAECAwQFBgcICQoLDA0ODxAREhMUFRYXGBkaGxwdHh8=" ∧
      matchCount (heldDevices (CheckDevice sampleWorld fourDeviceApp []).2.1)
        "AAECAwQFBgcICQoLDA0ODxAREhMUFRYXGBkaGxwdHh8=" = 0 ∧
      ¬ keyPairInvariant (CheckDevice sampleWorld fourDeviceApp []).2.1) ∧
    ((CheckDevice sampleWorld twinDeviceApp []).1 = .returned none ∧
      (CheckDevice sampleWorld twinDeviceApp []).2.1.Preferences.stringAt "PUB_KEY" = "k1" ∧
      matchCount (heldDevices (CheckDevice sampleWorld twinDeviceApp []).2.1) "k1" = 2 ∧
      ¬ keyPairInvariant (CheckDevice sampleWorld twinDeviceApp []).2.1) := by
  decide

/-- Provisioning for a user with four devices keeps the held list. -/
theorem CheckDevice_keypair_witness :
    CheckDevice sampleWorld fourDeviceApp []
      = (.returned none, (CheckDevice sampleWorld fourDeviceApp []).2.1,
          (CheckDevice sampleWorld fourDeviceApp []).2.2) ∧
    heldDevices (CheckDevice sampleWorld fourDeviceApp []).2.1 = fourDevices :=
  ⟨by decide,
    (CheckDevice_keypair sampleWorld fourDeviceApp [] _ _
      (by decide : CheckDevice sampleWorld fourDeviceApp []
        = (.returned none, (CheckDevice sampleWorld fourDeviceApp []).2.1,
            (CheckDevice sampleWorld fourDeviceApp []).2.2))).1⟩

/-- A random source that delivers nothing, under both behaviours of `rand.Read`.
When the failure is reported, the read returns the zeroed buffer with an
error, `createChallengeUrl` returns the base64 of 32 zero bytes as verifier
and `Login` returns a result. When the failure is fatal, the process dies in
the read. In neither case does the caller receive an error. -/
theorem createChallengeUrl_counterexample :
    (randRead .reported (makeBytes 32) [] = .returned (makeBytes 32, true) ∧
      createChallengeUrl .reported sampleDigest [] =
        .returned
          ("AAAAAAAAAAAAAAAAAAAAAAAAAAAAAAAAAAAAAAAAAAA=",
            "https://vpn.mozilla.org/api/v2/vpn/login/linux?code_challenge_method=S256&code_challenge="
              ++ "QUFBQUFBQUFBQUFBQUFBQUFBQUFBQUFBQUFBQUFBQUE=" ++ "&port=9443") ∧
      (Login noRandomWorld []).1 = .returned (.ok ⟨userWithDevices [], "tok-1"⟩)) ∧
    (randRead .fatal (makeBytes 32) [] = .panicked ∧
      createChallengeUrl .fatal sampleDigest [] = .panicked ∧
      Login noRandomFatalWorld [] = (.panicked, [Event.randRead])) := by
  decide

/-- Three starts with one failing network step each: the device upload (the
UI is shown and `main` returns), the relay-list fetch (the account fetch and
the upload still happen and `InitUi` is entered) and the first code exchange
(a second callback completes the login and the UI is shown). -/
theorem main_counterexample :
    (uploadFailWorld.clientDo []
        (uploadRequest "AAECAwQFBgcICQoLDA0ODxAREhMUFRYXGBkaGxwdHh8=" "tok-0")
        = .err "connection refused" ∧
      networkCalls (main uploadFailWorld tokenPrefs).trace
        = [relayRequest, accountRequest "tok-0",
            uploadRequest "AAECAwQFBgcICQoLDA0ODxAREhMUFRYXGBkaGxwdHh8=" "tok-0"] ∧
      (main uploadFailWorld tokenPrefs).exit = .finished ∧
      (main uploadFailWorld tokenPrefs).stage = .initUi ∧
      Event.showAndRun ∈ (main uploadFailWorld tokenPrefs).trace) ∧
    ((GetRelayList relayFailWorld []).1 = .err "unable perform GET request err:connection refused" ∧
      networkCalls (main relayFailWorld tokenPrefs).trace
        = [relayRequest, accountRequest "tok-0",
            uploadRequest "AAECAwQFBgcICQoLDA0ODxAREhMUFRYXGBkaGxwdHh8=" "tok-0"] ∧
      (main relayFailWorld tokenPrefs).stage = .initUi ∧
      (main relayFailWorld tokenPrefs).exit = .panicked) ∧
    (Event.log "Unable to open URL err:unable perform POST request err:connection reset\n"
        ∈ (main exchangeFailWorld []).trace ∧
      (main exchangeFailWorld []).exit = .finished ∧
      (main exchangeFailWorld []).stage = .initUi ∧
      Event.showAndRun ∈ (main exchangeFailWorld []).trace) := by
  refine ⟨by decide, by decide, by decide⟩

/-- A start with a token and a failing account fetch ends in the fatal error. -/
theorem main_network_failures_witness :
    tokenPrefs.stringAt "MOZ_TOKEN" ≠ "" ∧
    (main accountFailWorld tokenPrefs).exit
      = .fatal ("Unable to get user err:"
          ++ ("unable perform GetUser err:" ++ "unable perform GET request err:connection refused")
          ++ "\n") ∧
    (main accountFailWorld tokenPrefs).stage = .initUser :=
  ⟨by decide,
    (main_network_failures accountFailWorld tokenPrefs).2.1 (by decide)
      "unable perform GET request err:connection refused" (by decide)⟩

/-- A start with the token `tok-0`: the profile is fetched; with a failing
account fetch the error is returned and the state is kept. -/
theorem InitUser_with_token_witness :
    (appWith tokenPrefs none).Preferences.stringAt "MOZ_TOKEN" ≠ "" ∧
    (GetUser sampleWorld "tok-0" []).1 = .ok (userWithDevices []) ∧
    (InitUser sampleWorld (appWith tokenPrefs none) []).1 = .returned none ∧
    (InitUser sampleWorld (appWith tokenPrefs none) []).2.1.User = some (userWithDevices []) ∧
    (InitUser sampleWorld (appWith tokenPrefs none) []).2.1.Preferences = tokenPrefs ∧
    (GetUser accountFailWorld "tok-0" []).1
      = .err "unable perform GET request err:connection refused" ∧
    (InitUser accountFailWorld (appWith tokenPrefs none) []).1
      = .returned (some ("unable perform GetUser err:"
          ++ "unable perform GET request err:connection refused")) ∧
    (InitUser accountFailWorld (appWith tokenPrefs none) []).2.1 = appWith tokenPrefs none :=
  ⟨by decide, by decide,
    ((InitUser_with_token sampleWorld (appWith tokenPrefs none) [] (by decide)).2.2.1
      (userWithDevices []) (by decide)).1,
    ((InitUser_with_token sampleWorld (appWith tokenPrefs none) [] (by decide)).2.2.1
      (userWithDevices []) (by decide)).2.1,
    ((InitUser_with_token sampleWorld (appWith tokenPrefs none) [] (by decide)).2.2.1
      (userWithDevices []) (by decide)).2.2,
    by decide,
    ((InitUser_with_token accountFailWorld (appWith tokenPrefs none) [] (by decide)).2.2.2
      "unable perform GET request err:connection refused" (by decide)).1,
    ((InitUser_with_token accountFailWorld (appWith tokenPrefs none) [] (by decide)).2.2.2
      "unable perform GET request err:connection refused" (by decide)).2⟩

/-- A start without a token: the login result is stored; when the browser
cannot be opened the error is returned and the state is kept. -/
theorem InitUser_login_witness :
    (appWith [] none).Preferences.stringAt "MOZ_TOKEN" = "" ∧
    (Login sampleWorld []).1 = .returned (.ok ⟨userWithDevices [], "tok-1"⟩) ∧
    (InitUser sampleWorld (appWith [] none) []).1 = .returned none ∧
    (InitUser sampleWorld (appWith [] none) []).2.1.Preferences.stringAt "MOZ_TOKEN" = "tok-1" ∧
    (InitUser sampleWorld (appWith [] none) []).2.1.User = some (userWithDevices []) ∧
    (Login noBrowserWorld []).1
      = .returned (.err "unable to open URL err:exec: no browser") ∧
    (InitUser noBrowserWorld (appWith [] none) []).1
      = .returned (some ("unable perform Login err:" ++ "unable to open URL err:exec: no browser")) ∧
    (InitUser noBrowserWorld (appWith [] none) []).2.1 = appWith [] none :=
  ⟨by decide, by decide,
    ((InitUser_login sampleWorld (appWith [] none) [] (by decide)).1
      ⟨userWithDevices [], "tok-1"⟩ (Login sampleWorld []).2 (by decide)).1,
    ((InitUser_login sampleWorld (appWith [] none) [] (by decide)).1
      ⟨userWithDevices [], "tok-1"⟩ (Login sampleWorld []).2 (by decide)).2.1,
    ((InitUser_login sampleWorld (appWith [] none) [] (by decide)).1
      ⟨userWithDevices [], "tok-1"⟩ (Login sampleWorld []).2 (by decide)).2.2.1,
    by decide,
    ((InitUser_login noBrowserWorld (appWith [] none) [] (by decide)).2
      "unable to open URL err:exec: no browser" (Login noBrowserWorld []).2 (by decide)).1,
    ((InitUser_login noBrowserWorld (appWith [] none) [] (by decide)).2
      "unable to open URL err:exec: no browser" (Login noBrowserWorld []).2 (by decide)).2.1⟩

/-- The sample bytes 0..31, delivered in full: the read succeeds and so does
the call. -/
theorem createChallengeUrl_succeeds_witness :
    randRead .fatal (makeBytes 32) sampleBytes = .returned (sampleBytes, false) ∧
    ∃ v c : String,
      createChallengeUrl .fatal sampleDigest sampleBytes =
        .returned
          (v, "https://vpn.mozilla.org/api/v2/vpn/login/linux?code_challenge_method=S256&code_challenge="
              ++ c ++ "&port=9443") ∧
      sampleBytes.length = 32 ∧
      v = base64Encode sampleBytes ∧
      c = base64Encode (sampleDigest (stringBytes v)) :=
  ⟨by decide,
    (createChallengeUrl_succeeds .fatal sampleDigest sampleBytes).2 sampleBytes (by decide)⟩

/-- The handler on a fresh one-slot channel: a request with a code, a request
without one, and a request whose exchange fails. -/
theorem createHandler_delivers_witness :
    (createHandler sampleWorld "v" (Chan.make 1) [("code", "abc123")] []).2.1.queued
      = [⟨userWithDevices [], "tok-1"⟩] ∧
    (createHandler sampleWorld "v" (Chan.make 1) [("state", "x")] []).2.1.queued = [] ∧
    networkCalls (createHandler sampleWorld "v" (Chan.make 1) [("state", "x")] []).2.2 = [] ∧
    (createHandler exchangeFailWorld "v" (Chan.make 1) [("code", "bad")] []).2.1.queued = [] :=
  ⟨(createHandler_delivers sampleWorld "v" (Chan.make 1) [("code", "abc123")] []).1.trans
      (by decide),
    (createHandler_delivers sampleWorld "v" (Chan.make 1) [("state", "x")] []).1.trans
      (by decide),
    (createHandler_delivers sampleWorld "v" (Chan.make 1) [("state", "x")] []).2.1.trans
      (by decide),
    (createHandler_delivers exchangeFailWorld "v" (Chan.make 1) [("code", "bad")] []).1.trans
      (by decide)⟩

/-- Four devices, no persisted key, and a transport that refuses the upload:
the upload fails, and both keys go from empty to the new key-pair. -/
theorem CheckDevice_upload_failed_counterexample :
    (UploadDevice uploadFailWorld "AAECAwQFBgcICQoLDA0ODxAREhMUFRYXGBkaGxwdHh8=" "tok-0"
        [Event.log "Cannot find a matching public key", Event.generateKey]).1
      = .err "unable perform POST request err:connection refused" ∧
    fourDeviceApp.Preferences.stringAt "PUB_KEY" = "" ∧
    fourDeviceApp.Preferences.stringAt "PRIV_KEY" = "" ∧
    (CheckDevice uploadFailWorld fourDeviceApp []).1 = .returned none ∧
    (CheckDevice uploadFailWorld fourDeviceApp []).2.1.Preferences.stringAt "PUB_KEY"
      = "AAECAwQFBgcICQoLDA0ODxAREhMUFRYXGBkaGxwdHh8=" ∧
    (CheckDevice uploadFailWorld fourDeviceApp []).2.1.Preferences.stringAt "PRIV_KEY"
      = "AAECAwQFBgcICQoLDA0ODxAREhMUFRYXGBkaGxwdHh8AAQIDBAUGBwgJCgsMDQ4PEBESExQVFhcYGRobHB0eHw=="
    := by
  decide

/-- The same start, through the general statement. -/
theorem CheckDevice_upload_failed_witness :
    (UploadDevice uploadFailWorld (base64Encode sampleBytes)
        (fourDeviceApp.Preferences.stringAt "MOZ_TOKEN")
        ([] ++ [Event.log "Cannot find a matching public key"] ++ [Event.generateKey])).1
      = .err "unable perform POST request err:connection refused" ∧
    (CheckDevice uploadFailWorld fourDeviceApp []).1 = .returned none ∧
    (CheckDevice uploadFailWorld fourDeviceApp []).2.1.Preferences.stringAt "PUB_KEY"
      = base64Encode sampleBytes ∧
    (CheckDevice uploadFailWorld fourDeviceApp []).2.1.Preferences.stringAt "PRIV_KEY"
      = base64Encode (sampleBytes ++ sampleBytes) :=
  ⟨by decide,
    (CheckDevice_upload_failed uploadFailWorld fourDeviceApp [] (userWithDevices fourDevices)
      sampleBytes (sampleBytes ++ sampleBytes)
      "unable perform POST request err:connection refused" rfl (by decide)
      (Or.inl (by decide)) rfl (by decide)).1,
    (CheckDevice_upload_failed uploadFailWorld fourDeviceApp [] (userWithDevices fourDevices)
      sampleBytes (sampleBytes ++ sampleBytes)
      "unable perform POST request err:connection refused" rfl (by decide)
      (Or.inl (by decide)) rfl (by decide)).2.1,
    (CheckDevice_upload_failed uploadFailWorld fourDeviceApp [] (userWithDevices fourDevices)
      sampleBytes (sampleBytes ++ sampleBytes)
      "unable perform POST request err:connection refused" rfl (by decide)
      (Or.inl (by decide)) rfl (by decide)).2.2.1⟩

/-- A start in a world where the browser cannot be opened: `Login` returns the
error, the listener on port 9443 has been started and there is no shutdown
in the trace. -/
theorem Login_shutdown_witness :
    createChallengeUrl noBrowserWorld.readFailure noBrowserWorld.sha256Sum
        (noBrowserWorld.randSource [])
      = .returned
          ("AAECAwQFBgcICQoLDA0ODxAREhMUFRYXGBkaGxwdHh8=",
            "https://vpn.mozilla.org/api/v2/vpn/login/linux?code_challenge_method=S256&code_challenge="
              ++ "WFlSRlVNaEVSQXhETzBBRExvUUNJY2dCRlF3QUNFQUE=" ++ "&port=9443") ∧
    noBrowserWorld.openURL (startServer ([] ++ [Event.randRead]))
        ("https://vpn.mozilla.org/api/v2/vpn/login/linux?code_challenge_method=S256&code_challenge="
          ++ "WFlSRlVNaEVSQXhETzBBRExvUUNJY2dCRlF3QUNFQUE=" ++ "&port=9443")
      = some "exec: no browser" ∧
    (Login noBrowserWorld []).1 = .returned (.err "unable to open URL err:exec: no browser") ∧
    Event.listen ":9443" ∈ (Login noBrowserWorld []).2 ∧
    Event.shutdown ∉ (Login noBrowserWorld []).2 :=
  ⟨by decide, by decide,
    congrArg Prod.fst
      ((Login_shutdown noBrowserWorld []).2 "AAECAwQFBgcICQoLDA0ODxAREhMUFRYXGBkaGxwdHh8="
        ("https://vpn.mozilla.org/api/v2/vpn/login/linux?code_challenge_method=S256&code_challenge="
          ++ "WFlSRlVNaEVSQXhETzBBRExvUUNJY2dCRlF3QUNFQUE=" ++ "&port=9443")
        "exec: no browser" (by decide) (by decide)).1,
    by decide, by decide⟩

end MozVpn
